import Mathlib

/-!
Shallow embedding of the transaction dispatch and validation core found in
`crates/namada/src/ledger/protocol/mod.rs`, together with theorems checking
the natural-language specification against it.

Modelling conventions:
* Machine integers (`u64`, token `Amount` backed by a 256-bit unsigned
  integer) are modelled as `Nat` with explicit bounds where overflow is
  checked in the source (`checked_add` / `checked_sub` / `checked_mul`).
* The sandboxed wasm runner, the native validity predicates, the MASP
  machinery and the Ethereum-bridge vote folding are external collaborators
  of this core (the spec treats them as opaque); they are parameters of the
  embedding, collected in a `ProtocolEnv` record of oracles.
* Stateful Rust code (`&mut` state, `RefCell` gas meters) becomes explicit
  state passing: each embedded function returns its result together with the
  updated `LedgerState` and `TxGasMeter`.
* The `rayon` parallel `try_fold`/`try_reduce` over the `BTreeSet` of
  verifiers in `execute_vps` is modelled as a sequential fold over the
  canonically ordered list of verifiers (the spec's determinism requirement
  makes the parallel reduction observationally equal to this fold).
* Fallible Rust code returning `Result<T, Error>` becomes `Except Error T`.
-/

namespace NamadaProtocol

/-- Cryptographic hashes are opaque identifiers here. -/
abbrev Hash := Nat

/-- A MASP shielded transaction is opaque to this core. -/
abbrev Transaction := Nat

/-- Token amounts are 256-bit unsigned integers in the source
(`token::Amount` is backed by a 4-limb `Uint`). -/
def AMOUNT_MAX : Nat := 2 ^ 256 - 1

/-- Checked addition on token amounts (`Amount::checked_add`). -/
def checked_add (a b : Nat) : Option Nat :=
  if a + b ≤ AMOUNT_MAX then some (a + b) else none

/-- Checked subtraction on token amounts (`Amount::checked_sub`). -/
def checked_sub (a b : Nat) : Option Nat :=
  if b ≤ a then some (a - b) else none

/-- Checked multiplication on token amounts. -/
def checked_mul (a b : Nat) : Option Nat :=
  if a * b ≤ AMOUNT_MAX then some (a * b) else none

/-- The closed set of internal address kinds
(`namada_core::address::InternalAddress`). Payload-carrying kinds keep an
opaque `Nat` payload (token hash / erc20 address). -/
inductive InternalAddress where
  | PoS
  | Ibc
  | Parameters
  | PosSlashPool
  | Governance
  | Multitoken
  | EthBridge
  | EthBridgePool
  | Pgf
  | Nut (erc20 : Nat)
  | IbcToken (h : Nat)
  | Erc20 (erc20 : Nat)
  | Masp
  | TempStorage
deriving DecidableEq

/-- Addresses: implicit, established, or internal
(`namada_core::address::Address`). -/
inductive Address where
  | Implicit (n : Nat)
  | Established (n : Nat)
  | Internal (ia : InternalAddress)
deriving DecidableEq

/-- Storage keys. Balance keys (`token::storage_key::balance_key`) are the
only keys this core inspects structurally; every other key is opaque. -/
inductive Key where
  | balance (token owner : Address)
  | other (n : Nat)
deriving DecidableEq

/-- The protocol error enum (`protocol::Error`). Payloads of external error
types are rendered as their message strings. -/
inductive Error where
  | MissingSection (s : String)
  | StateError (s : String)
  | StorageError (s : String)
  | WrapperRunnerError (s : String)
  | TxRunnerError (s : String)
  | ProtocolTxError (s : String)
  | TxTypeError
  | FeeUnshieldingError (s : String)
  | GasError (s : String)
  | FeeError (s : String)
  | InvalidSectionSignature (s : String)
  | ReplayAttempt (h : Hash)
  | VpRunnerError (s : String)
  | MissingAddress (a : Address)
  | IbcNativeVpError (s : String)
  | PosNativeVpError (s : String)
  | PosNativeVpRuntime
  | ParametersNativeVpError (s : String)
  | MultitokenNativeVpError (s : String)
  | GovernanceNativeVpError (s : String)
  | PgfNativeVpError (s : String)
  | EthBridgeNativeVpError (s : String)
  | BridgePoolNativeVpError (s : String)
  | NutNativeVpError (s : String)
  | MaspNativeVpError (s : String)
  | AccessForbidden (ia : InternalAddress)
deriving DecidableEq

/-- Rendering of an error as a message string (`Error: Display`, derived by
`thiserror` in the source). Only the prefixes that the claims inspect are
reproduced verbatim; payloads of structured errors are elided. -/
def Error.toMessage : Error → String
  | .MissingSection s => "Missing tx section: " ++ s
  | .StateError s => "State error: " ++ s
  | .StorageError s => "Storage error: " ++ s
  | .WrapperRunnerError s => "Wrapper tx runner error: " ++ s
  | .TxRunnerError s => "Transaction runner error: " ++ s
  | .ProtocolTxError s => s
  | .TxTypeError => "Txs must either be encrypted or a decryption of an encrypted tx"
  | .FeeUnshieldingError s => "Fee ushielding error: " ++ s
  | .GasError s => "Gas error: " ++ s
  | .FeeError s => "Error while processing transaction's fees: " ++ s
  | .InvalidSectionSignature s => "Invalid transaction section signature: " ++ s
  | .ReplayAttempt _ => "The decrypted transaction has already been applied in this block"
  | .VpRunnerError s => "Error executing VP: " ++ s
  | .MissingAddress _ => "The address doesn't exist"
  | .IbcNativeVpError s => "IBC native VP: " ++ s
  | .PosNativeVpError s => "PoS native VP: " ++ s
  | .PosNativeVpRuntime => "PoS native VP panicked"
  | .ParametersNativeVpError s => "Parameters native VP: " ++ s
  | .MultitokenNativeVpError s => "IBC Token native VP: " ++ s
  | .GovernanceNativeVpError s => "Governance native VP error: " ++ s
  | .PgfNativeVpError s => "Pgf native VP error: " ++ s
  | .EthBridgeNativeVpError s => "Ethereum bridge native VP error: " ++ s
  | .BridgePoolNativeVpError s => "Ethereum bridge pool native VP error: " ++ s
  | .NutNativeVpError s => "Non usable tokens native VP error: " ++ s
  | .MaspNativeVpError s => "MASP native VP error: " ++ s
  | .AccessForbidden _ => "Access to an internal address is forbidden"

/-- `Error::invalid_section_signature_flag`: the single defined bit of
`VpStatusFlags`, modelled as a `Bool`. -/
def Error.invalid_section_signature_flag : Error → Bool
  | .InvalidSectionSignature _ => true
  | _ => false

/-- Association-list lookup keyed by storage keys. -/
def lookup_key : List (Key × Nat) → Key → Option Nat
  | [], _ => none
  | (k₁, v) :: rest, k => if k = k₁ then some v else lookup_key rest k

/-- Modelled from the spec: the three-tier write-log of `namada_state`
(`WriteLog` itself is not under `src/`). Reads consult tx, then precommit,
then block buffer; `write_tx_hash` maintains the replay-protection index
(consulted by `has_replay_protection_entry` regardless of the buffer
tiers, so that replayed wrappers are rejected even if later steps abort);
IBC events and initialized accounts are carried opaquely. -/
structure WriteLog where
  tx_buffer : List (Key × Nat)
  precommit_buffer : List (Key × Nat)
  block_buffer : List (Key × Nat)
  replay_protection : List Hash
  ibc_events : List Nat
  initialized_accounts : List Address
deriving DecidableEq

/-- Modelled from the spec: top-down read through the write-log tiers. -/
def WriteLog.read (wl : WriteLog) (k : Key) : Option Nat :=
  (lookup_key wl.tx_buffer k).orElse fun _ =>
    (lookup_key wl.precommit_buffer k).orElse fun _ =>
      lookup_key wl.block_buffer k

/-- Modelled from the spec: `write(k,v)` records a mutation in the tx
buffer of the currently executing transaction. -/
def WriteLog.write (wl : WriteLog) (k : Key) (v : Nat) : WriteLog :=
  { wl with tx_buffer := (k, v) :: wl.tx_buffer }

/-- Modelled from the spec: `commit_tx()` promotes the tx buffer (and any
precommitted sub-execution writes) into the block buffer. -/
def WriteLog.commit_tx (wl : WriteLog) : WriteLog :=
  { wl with
    tx_buffer := []
    precommit_buffer := []
    block_buffer := wl.tx_buffer ++ wl.precommit_buffer ++ wl.block_buffer }

/-- Modelled from the spec: `precommit_tx()` promotes the tx buffer into
the precommit buffer, leaving an empty tx buffer for a sub-execution. -/
def WriteLog.precommit_tx (wl : WriteLog) : WriteLog :=
  { wl with
    tx_buffer := []
    precommit_buffer := wl.tx_buffer ++ wl.precommit_buffer }

/-- Modelled from the spec: `drop_tx_keep_precommit()` discards the tx
buffer only, leaving the precommit buffer intact. -/
def WriteLog.drop_tx_keep_precommit (wl : WriteLog) : WriteLog :=
  { wl with tx_buffer := [] }

/-- Modelled from the spec: keys touched in the tx and precommit buffers
(`get_keys_with_precommit`). -/
def WriteLog.get_keys_with_precommit (wl : WriteLog) : List Key :=
  (wl.tx_buffer ++ wl.precommit_buffer).map Prod.fst

/-- Modelled from the spec: keys touched in the tx buffer (`get_keys`). -/
def WriteLog.get_keys (wl : WriteLog) : List Key :=
  wl.tx_buffer.map Prod.fst

/-- Modelled from the spec: `write_tx_hash` records a transaction hash in
the replay-protection index. -/
def WriteLog.write_tx_hash (wl : WriteLog) (h : Hash) : WriteLog :=
  { wl with replay_protection := h :: wl.replay_protection }

/-- Modelled from the spec: `has_replay_protection_entry`. -/
def WriteLog.has_replay_protection_entry (wl : WriteLog) (h : Hash) : Bool :=
  wl.replay_protection.contains h

/-- Modelled from the spec: `take_ibc_events` hands out the accumulated
IBC events, clearing them from the log. -/
def WriteLog.take_ibc_events (wl : WriteLog) : List Nat × WriteLog :=
  (wl.ibc_events, { wl with ibc_events := [] })

/-- The world-state: committed storage under a layered write-log. -/
structure LedgerState where
  storage : List (Key × Nat)
  write_log : WriteLog
deriving DecidableEq

/-- Typed read through the write-log and then committed storage. -/
def LedgerState.read (st : LedgerState) (k : Key) : Option Nat :=
  (st.write_log.read k).orElse fun _ => lookup_key st.storage k

/-- `token::read_balance`: balance of `owner` in `token`, zero when the
balance key is absent. -/
def read_balance (st : LedgerState) (token owner : Address) : Nat :=
  (st.read (Key.balance token owner)).getD 0

/-- Modelled from the spec: `namada_gas::TxGasMeter` (the gas crate is not
under `src/`): a counter with a hard ceiling `tx_gas_limit`. -/
structure TxGasMeter where
  tx_gas_limit : Nat
  transaction_gas : Nat
deriving DecidableEq

/-- Modelled from the spec: a fresh meter with the given ceiling. -/
def TxGasMeter.new (limit : Nat) : TxGasMeter :=
  { tx_gas_limit := limit, transaction_gas := 0 }

/-- Modelled from the spec: `consume(n)` fails when the total would exceed
the ceiling. -/
def TxGasMeter.consume (m : TxGasMeter) (n : Nat) : Except String TxGasMeter :=
  if m.transaction_gas + n > m.tx_gas_limit then
    .error "Transaction gas limit exceeded"
  else
    .ok { m with transaction_gas := m.transaction_gas + n }

/-- Modelled from the spec: `copy_consumed_gas_from(other)` seeds this
meter with the gas already consumed by `other`, respecting the ceiling. -/
def TxGasMeter.copy_consumed_gas_from (m other : TxGasMeter) :
    Except String TxGasMeter :=
  if other.transaction_gas > m.tx_gas_limit then
    .error "Transaction gas limit exceeded"
  else
    .ok { m with transaction_gas := other.transaction_gas }

/-- Modelled from the spec: `add_wrapper_gas(tx_bytes)` charges gas
proportional to the serialized wrapper size. -/
def TxGasMeter.add_wrapper_gas (m : TxGasMeter) (tx_bytes_len : Nat) :
    Except String TxGasMeter :=
  m.consume tx_bytes_len

/-- Modelled from the spec: `add_vps_gas` folds the aggregated VP gas into
the transaction meter. -/
def TxGasMeter.add_vps_gas (m : TxGasMeter) (v : Nat) : Except String TxGasMeter :=
  m.consume v

/-- Modelled from the spec: `get_tx_consumed_gas`. -/
def TxGasMeter.get_tx_consumed_gas (m : TxGasMeter) : Nat :=
  m.transaction_gas

/-- Modelled from the spec: `VpGasMeter::new_from_tx_meter` derives a
per-VP meter from the transaction meter's ceiling, remembering the gas the
transaction has already consumed; the meter then accumulates the VP's own
consumption. -/
structure VpGasMeter where
  gas_limit : Nat
  initial_gas : Nat
  current_gas : Nat
deriving DecidableEq

/-- Modelled from the spec: derive a per-VP meter from the tx meter. -/
def VpGasMeter.new_from_tx_meter (m : TxGasMeter) : VpGasMeter :=
  { gas_limit := m.tx_gas_limit, initial_gas := m.transaction_gas, current_gas := 0 }

/-- Modelled from the spec: per-VP `consume`, enforcing the shared ceiling
over initial plus own consumption. -/
def VpGasMeter.consume (m : VpGasMeter) (n : Nat) : Except String VpGasMeter :=
  if m.initial_gas + m.current_gas + n > m.gas_limit then
    .error "Transaction gas limit exceeded"
  else
    .ok { m with current_gas := m.current_gas + n }

/-- Modelled from the spec: `VpsGas::set` folds one finished per-VP meter
into the aggregate VP gas, re-checking the shared ceiling (this is what
makes gas the one error that short-circuits VP evaluation). -/
def vps_gas_set (acc : Nat) (gm : VpGasMeter) : Except String Nat :=
  if gm.initial_gas + (acc + gm.current_gas) > gm.gas_limit then
    .error "Transaction gas limit exceeded"
  else
    .ok (acc + gm.current_gas)

/-- Transaction sections, addressable by hash (`namada_tx::Section`).
Only the MASP variant is inspected structurally by this core. -/
inductive Section where
  | MaspTx (t : Transaction)
  | Data (n : Nat)
  | Code (n : Nat)
  | Authorization (n : Nat)
deriving DecidableEq

/-- Association-list lookup of a section by its hash. -/
def lookup_section : List (Hash × Section) → Hash → Option Section
  | [], _ => none
  | (h₁, s) :: rest, h => if h = h₁ then some s else lookup_section rest h

/-- A transaction descriptor (`namada_tx::Tx`): the two derived hashes and
the hash-addressable sections; everything else is opaque to this core. -/
structure Tx where
  header_hash : Hash
  raw_header_hash : Hash
  sections : List (Hash × Section)
deriving DecidableEq

/-- `Tx::get_section`. -/
def Tx.get_section (tx : Tx) (h : Hash) : Option Section :=
  lookup_section tx.sections h

/-- Wrapper fee data (`namada_tx::data::Fee`). -/
structure Fee where
  amount_per_gas_unit : Nat
  token : Address
deriving DecidableEq

/-- The wrapper transaction header (`namada_tx::data::WrapperTx`); the fee
payer's public key is modelled directly by the derived address. -/
structure WrapperTx where
  fee : Fee
  fee_payer_address : Address
  gas_limit : Nat
  unshield_section_hash : Option Hash
deriving DecidableEq

/-- `WrapperTx::fee_payer`. -/
def WrapperTx.fee_payer (w : WrapperTx) : Address :=
  w.fee_payer_address

/-- Modelled from the spec: `WrapperTx::get_tx_fee` (the `namada_tx` crate
is not under `src/`) multiplies the per-gas-unit fee by the gas limit and
fails on amount overflow. -/
def WrapperTx.get_tx_fee (w : WrapperTx) : Except String Nat :=
  match checked_mul w.fee.amount_per_gas_unit w.gas_limit with
  | some f => .ok f
  | none => .error "Fee amount overflow"

/-- Result of running the validity predicates of one transaction
(`namada_tx::data::VpsResult`); `status_flags` is the single
invalid-section-signature bit. -/
structure VpsResult where
  accepted_vps : List Address
  rejected_vps : List Address
  gas_used : Nat
  errors : List (Address × String)
  status_flags : Bool
deriving DecidableEq

/-- `VpsResult::default`. -/
def VpsResult.default : VpsResult :=
  { accepted_vps := [], rejected_vps := [], gas_used := 0, errors := [],
    status_flags := false }

/-- Result of applying a transaction (`namada_tx::data::TxResult`). -/
structure TxResult where
  gas_used : Nat
  wrapper_changed_keys : List Key
  changed_keys : List Key
  vps_result : VpsResult
  initialized_accounts : List Address
  ibc_events : List Nat
  eth_bridge_events : List Nat
deriving DecidableEq

/-- `TxResult::default`. -/
def TxResult.default : TxResult :=
  { gas_used := 0, wrapper_changed_keys := [], changed_keys := [],
    vps_result := VpsResult.default, initialized_accounts := [],
    ibc_events := [], eth_bridge_events := [] }

/-- `TxResult::is_accepted`: no VP rejected the transaction. -/
def TxResult.is_accepted (r : TxResult) : Bool :=
  r.vps_result.rejected_vps.isEmpty

/-- Outcome of the sandboxed VP runner (`wasm::run::vp`), as classified by
the `map_err` in `execute_vps`: gas errors, invalid section signatures and
all other runner errors are distinguished. -/
inductive VpWasmOutcome where
  | accept
  | gas_error (s : String)
  | invalid_sig (s : String)
  | other_error (s : String)
deriving DecidableEq

/-- The `map_err` on the `wasm::run::vp` call in `execute_vps`. -/
def VpWasmOutcome.toResult : VpWasmOutcome → Except Error Unit
  | .accept => .ok ()
  | .gas_error s => .error (.GasError s)
  | .invalid_sig s => .error (.InvalidSectionSignature s)
  | .other_error s => .error (.VpRunnerError s)

/-- Outcome of the sandboxed transaction runner (`wasm::run::tx`), as
classified by the `map_err` in `execute_tx`. -/
inductive TxRunErr where
  | GasError (s : String)
  | MissingSection (s : String)
  | Other (s : String)
deriving DecidableEq

/-- The `map_err` on the `wasm::run::tx` call in `execute_tx`. -/
def TxRunErr.toError : TxRunErr → Error
  | .GasError s => .GasError s
  | .MissingSection s => .MissingSection s
  | .Other s => .TxRunnerError s

/-- Result triple of the sandboxed transaction runner: the verifier set
requested by the payload (or a runner error) plus the mutated state and
gas meter. -/
structure TxRunOut where
  res : Except TxRunErr (List Address)
  st : LedgerState
  txm : TxGasMeter

/-- The wrapping of a kind-specific native-VP error into `protocol::Error`
(the per-kind `map_err` arms of the `Internal` match in `execute_vps`).
The sentinel kinds never reach the native-VP table; they are given the
`AccessForbidden` error their own arms produce. -/
def native_vp_error : InternalAddress → String → Error
  | .PoS, s => .PosNativeVpError s
  | .Ibc, s => .IbcNativeVpError s
  | .Parameters, s => .ParametersNativeVpError s
  | .Governance, s => .GovernanceNativeVpError s
  | .Multitoken, s => .MultitokenNativeVpError s
  | .EthBridge, s => .EthBridgeNativeVpError s
  | .EthBridgePool, s => .BridgePoolNativeVpError s
  | .Pgf, s => .PgfNativeVpError s
  | .Nut _, s => .NutNativeVpError s
  | .Masp, s => .MaspNativeVpError s
  | ia, _ => .AccessForbidden ia

/-- The external protocol-transaction payload kinds
(`namada_vote_ext::EthereumTxData`); payloads are opaque. -/
inductive EthereumTxData where
  | EthEventsVext (v : Nat)
  | BridgePoolVext (v : Nat)
  | ValSetUpdateVext (v : Nat)
  | EthereumEvents (v : Nat)
  | BridgePool (v : Nat)
  | ValidatorSetUpdate (v : Nat)
deriving DecidableEq

/-- The protocol transaction kind tag (`ProtocolTxType`), opaque here: the
embedding only threads it into deserialization. -/
abbrev ProtocolTxType := Nat

/-- The external collaborators of the core, collected as oracles: the
sandboxed wasm runners, the per-address VP code lookup, the native VPs,
token denomination conversion, MASP fee-unshielding transaction synthesis,
write-log verifier collection, and the Ethereum-bridge vote folding. The
spec declares all of these out of scope for the core, so the embedding
parameterizes over them. -/
structure ProtocolEnv where
  validity_predicate : Address → Except String (Option Hash × Nat)
  run_wasm_vp : Hash → Address → VpWasmOutcome × Nat
  run_native_vp : InternalAddress → Except String Unit × Nat
  run_tx : Tx → Nat → LedgerState → TxGasMeter → TxRunOut
  verifiers_and_changed_keys : WriteLog → List Address → List Address × List Key
  denom_to_amount : Nat → Address → LedgerState → Except String Nat
  generate_fee_unshielding : WrapperTx → Hash → Transaction → Except String Tx
  deserialize_eth : ProtocolTxType → List Nat → Except String EthereumTxData
  apply_eth_events_tx : LedgerState → Nat → Except String TxResult × LedgerState
  apply_bridge_pool_tx : LedgerState → Nat → Except String TxResult × LedgerState
  apply_valset_upd_tx : LedgerState → Nat → Except String TxResult × LedgerState

/-- The body of the per-verifier closure of `execute_vps` that computes
`tx_accepted` (lines 863-988 of `protocol/mod.rs`). The outer `Except`
layer models the `?` operators and the early `return Err(...)` inside the
closure, which abort the whole fold; the inner `Except Error Unit` is the
`tx_accepted` value, whose errors are recorded in `rejected_vps` without
aborting. For `Implicit`/`Established` addresses the VP code hash is
looked up (a state error aborts), the storage-read gas is consumed on the
per-VP meter (a gas error aborts), a missing code hash aborts with
`MissingAddress`, and otherwise the sandboxed runner's classified outcome
and gas consumption are recorded. For `Internal` addresses the closed
native-VP table is consulted: `PosSlashPool` and `TempStorage` produce
`AccessForbidden`, `IbcToken`/`Erc20` accept exactly when the `Multitoken`
internal address is among the verifiers, and every other kind runs its
native VP, wrapping a rejection in its kind-specific error. -/
def eval_tx_accepted (env : ProtocolEnv) (verifiers : List Address)
    (gm : VpGasMeter) (addr : Address) :
    Except Error (Except Error Unit × VpGasMeter) :=
  match addr with
  | .Implicit _ | .Established _ =>
    match env.validity_predicate addr with
    | .error s => .error (.StateError s)
    | .ok (vp_hash, gas) =>
      match gm.consume gas with
      | .error s => .error (.GasError s)
      | .ok gm₁ =>
        match vp_hash with
        | none => .error (.MissingAddress addr)
        | some vp_code_hash =>
          let (outcome, g) := env.run_wasm_vp vp_code_hash addr
          .ok (outcome.toResult, { gm₁ with current_gas := gm₁.current_gas + g })
  | .Internal ia =>
    match ia with
    | .PosSlashPool => .ok (.error (.AccessForbidden .PosSlashPool), gm)
    | .TempStorage => .ok (.error (.AccessForbidden .TempStorage), gm)
    | .IbcToken t =>
      .ok (if Address.Internal .Multitoken ∈ verifiers then .ok ()
           else .error (.AccessForbidden (.IbcToken t)), gm)
    | .Erc20 t =>
      .ok (if Address.Internal .Multitoken ∈ verifiers then .ok ()
           else .error (.AccessForbidden (.Erc20 t)), gm)
    | _ =>
      let (r, g) := env.run_native_vp ia
      .ok (match r with
           | .ok () => .ok ()
           | .error s => .error (native_vp_error ia s),
           { gm with current_gas := gm.current_gas + g })

/-- One step of the `try_fold` in `execute_vps`: instantiate a fresh
per-VP gas meter from the tx meter, evaluate the verifier, record the
outcome in the accumulated `VpsResult` (`map_or_else` on `tx_accepted`),
and fold the per-VP meter into the aggregate VP gas — whose ceiling check
is the gas short-circuit of the fold. -/
def execute_vps_step (env : ProtocolEnv) (verifiers : List Address)
    (txm : TxGasMeter) (result : VpsResult) (addr : Address) :
    Except Error VpsResult :=
  let gm := VpGasMeter.new_from_tx_meter txm
  match eval_tx_accepted env verifiers gm addr with
  | .error e => .error e
  | .ok (tx_accepted, gm₁) =>
    let result₁ :=
      match tx_accepted with
      | .error err =>
        { result with
          status_flags := result.status_flags || err.invalid_section_signature_flag
          rejected_vps := result.rejected_vps.insert addr
          errors := result.errors ++ [(addr, err.toMessage)] }
      | .ok () => { result with accepted_vps := result.accepted_vps.insert addr }
    match vps_gas_set result₁.gas_used gm₁ with
    | .error s => .error (.GasError s)
    | .ok g => .ok { result₁ with gas_used := g }

/-- The `try_fold` of `execute_vps` over the verifier set, sequentially in
the canonical (`BTreeSet`) order; the parallel `try_reduce` of the source
merges disjoint partial folds and is observationally this fold by the
spec's determinism requirement. -/
def execute_vps_fold (env : ProtocolEnv) (verifiers : List Address)
    (txm : TxGasMeter) : List Address → VpsResult → Except Error VpsResult
  | [], result => .ok result
  | addr :: rest, result =>
    match execute_vps_step env verifiers txm result addr with
    | .error e => .error e
    | .ok r => execute_vps_fold env verifiers txm rest r

/-- `execute_vps`: evaluate every verifier's validity predicate, collecting
accepted and rejected VPs, error messages, the status flags and the
aggregate VP gas. -/
def execute_vps (env : ProtocolEnv) (verifiers : List Address)
    (txm : TxGasMeter) : Except Error VpsResult :=
  execute_vps_fold env verifiers txm verifiers VpsResult.default

/-- `token_transfer`: transfer `amount` of `token` from `src` to `dest`
through the tx write-log. Fails on insufficient source balance or
destination overflow; a self-transfer with sufficient balance is a no-op. -/
def token_transfer (st : LedgerState) (token src dest : Address)
    (amount : Nat) : Except Error LedgerState :=
  let src_key := Key.balance token src
  let src_balance := read_balance st token src
  match checked_sub src_balance amount with
  | some new_src_balance =>
    if src = dest then
      .ok st
    else
      let dest_key := Key.balance token dest
      let dest_balance := read_balance st token dest
      match checked_add dest_balance amount with
      | some new_dest_balance =>
        .ok { st with write_log := ((st.write_log.write src_key new_src_balance).write dest_key new_dest_balance) }
      | none =>
        .error (.FeeError "The transfer would overflow destination balance")
  | none => .error (.FeeError "Insufficient source balance")

/-- `transfer_fee`: move the wrapper fee from the fee payer to the block
proposer. On insufficient balance the whole available balance is drained
to the proposer and a `Fee` error is returned; on fee overflow a `Fee`
error is returned with no transfer. The returned state reflects any
partial transfer performed before the error. -/
def transfer_fee (env : ProtocolEnv) (st : LedgerState)
    (block_proposer : Address) (wrapper : WrapperTx) :
    Except Error Unit × LedgerState :=
  let balance := read_balance st wrapper.fee.token wrapper.fee_payer
  match wrapper.get_tx_fee with
  | .ok fees_denom =>
    match env.denom_to_amount fees_denom wrapper.fee.token st with
    | .error e => (.error (.FeeError e), st)
    | .ok fees =>
      if (checked_sub balance fees).isSome then
        match token_transfer st wrapper.fee.token wrapper.fee_payer
            block_proposer fees with
        | .ok st₁ => (.ok (), st₁)
        | .error e => (.error (.FeeError e.toMessage), st)
      else
        match token_transfer st wrapper.fee.token wrapper.fee_payer
            block_proposer balance with
        | .ok st₁ =>
          (.error (.FeeError
            "Transparent balance of wrapper's signer was insufficient to pay fee. All the available transparent funds have been moved to the block proposer"),
           st₁)
        | .error e => (.error (.FeeError e.toMessage), st)
  | .error e => (.error (.FeeError e), st)

/-- `check_fees`: verify that the fee payer's transparent balance covers
the wrapper fee, without mutating anything. -/
def check_fees (env : ProtocolEnv) (st : LedgerState) (wrapper : WrapperTx) :
    Except Error Unit :=
  let balance := read_balance st wrapper.fee.token wrapper.fee_payer
  match wrapper.get_tx_fee with
  | .error e => .error (.FeeError e)
  | .ok fees_denom =>
    match env.denom_to_amount fees_denom wrapper.fee.token st with
    | .error e => .error (.FeeError e)
    | .ok fees =>
      if (checked_sub balance fees).isSome then .ok ()
      else .error (.FeeError "Insufficient transparent balance to pay fees")

/-- `check_vps`: collect the verifiers and changed keys from the write-log,
run all VPs, and charge the aggregate VP gas to the transaction meter. -/
def check_vps (env : ProtocolEnv) (st : LedgerState) (txm : TxGasMeter)
    (verifiers_from_tx : List Address) : Except Error (VpsResult × TxGasMeter) :=
  let (verifiers, _keys_changed) :=
    env.verifiers_and_changed_keys st.write_log verifiers_from_tx
  match execute_vps env verifiers txm with
  | .error e => .error e
  | .ok vps_result =>
    match txm.add_vps_gas vps_result.gas_used with
    | .error s => .error (.GasError s)
    | .ok txm₁ => .ok (vps_result, txm₁)

/-- Result triple of `apply_wasm_tx`. -/
structure ApplyWasmOut where
  res : Except Error TxResult
  st : LedgerState
  txm : TxGasMeter

/-- `apply_wasm_tx`: the payload path. Rejects a replayed inner
transaction before any execution, then runs the sandboxed payload, runs
the VPs, and assembles the `TxResult`. -/
def apply_wasm_tx (env : ProtocolEnv) (tx : Tx) (tx_index : Nat)
    (st : LedgerState) (txm : TxGasMeter) : ApplyWasmOut :=
  let tx_hash := tx.raw_header_hash
  if st.write_log.has_replay_protection_entry tx_hash then
    ⟨.error (.ReplayAttempt tx_hash), st, txm⟩
  else
    let run := env.run_tx tx tx_index st txm
    match run.res with
    | .error e => ⟨.error e.toError, run.st, run.txm⟩
    | .ok verifiers =>
      match check_vps env run.st run.txm verifiers with
      | .error e => ⟨.error e, run.st, run.txm⟩
      | .ok (vps_result, txm₂) =>
        let gas_used := txm₂.get_tx_consumed_gas
        let initialized_accounts := run.st.write_log.initialized_accounts
        let changed_keys := run.st.write_log.get_keys
        let (ibc_events, wl₁) := run.st.write_log.take_ibc_events
        ⟨.ok { gas_used := gas_used
               wrapper_changed_keys := []
               changed_keys := changed_keys
               vps_result := vps_result
               initialized_accounts := initialized_accounts
               ibc_events := ibc_events
               eth_bridge_events := [] },
         { run.st with write_log := wl₁ }, txm₂⟩

/-- The canonical storage key of the `fee_unshielding_gas_limit` protocol
parameter. -/
def fee_unshielding_gas_limit_key : Key := Key.other 1

/-- The storage read of the `fee_unshielding_gas_limit` protocol parameter
(the source `expect`s the parameter to be present; the model defaults a
missing parameter to zero). -/
def read_fee_unshielding_gas_limit (st : LedgerState) : Nat :=
  (st.read fee_unshielding_gas_limit_key).getD 0

/-- The canonical storage key binding the well-known transfer wasm code
name to its hash (`Key::wasm_code_name(TX_TRANSFER_WASM)`). -/
def transfer_code_name_key : Key := Key.other 2

/-- `get_transfer_hash_from_storage`: the wasm hash for a transfer, read
from storage by its canonical code name (the source panics when missing;
the model defaults to hash 0). -/
def get_transfer_hash_from_storage (st : LedgerState) : Hash :=
  (st.read transfer_code_name_key).getD 0

/-- `get_fee_unshielding_transaction`: the MASP transaction selected by the
wrapper's `unshield_section_hash`, when that hash is present, resolves to a
section of the transaction, and that section is a MASP section. -/
def get_fee_unshielding_transaction (tx : Tx) (wrapper : WrapperTx) :
    Option Transaction :=
  (wrapper.unshield_section_hash.bind fun h => tx.get_section h).bind
    fun sec =>
      match sec with
      | .MaspTx transaction => some transaction
      | _ => none

/-- Result triple of `run_fee_unshielding`. -/
structure RunFeeUnshieldOut where
  res : Except Error Bool
  st : LedgerState
  txm : TxGasMeter

/-- The `if let Error::GasError(_) = e` classification in
`run_fee_unshielding`: a gas error from the sub-execution runner is
propagated (it will become the function's early error return); any other
runner error makes the unshielding report `false`. -/
def fee_unshield_runner_error (e : Error) : Except Error Bool :=
  match e with
  | .GasError s => .error (.GasError s)
  | _ => .ok false

/-- `run_fee_unshielding`: execute the MASP fee-unshielding transaction
under a private gas meter whose ceiling is the minimum of the
`fee_unshielding_gas_limit` protocol parameter and the transaction's gas
limit, seeded with the gas already consumed by the enclosing meter. The
current tx buffer is precommitted so the sub-execution's VPs see a clean
delta; a VP rejection or a non-gas runner error drops the sub-execution's
tx buffer (keeping the precommit) and reports `false`; a gas error from
the runner is returned as a fatal error immediately (before the final
copy-back of the private meter's consumption into the enclosing meter,
which happens on every other path). -/
def run_fee_unshielding (env : ProtocolEnv) (wrapper : WrapperTx)
    (st : LedgerState) (txm : TxGasMeter) (transaction : Transaction) :
    RunFeeUnshieldOut :=
  let min_gas_limit := (read_fee_unshielding_gas_limit st).min txm.tx_gas_limit
  match (TxGasMeter.new min_gas_limit).copy_consumed_gas_from txm with
  | .error e => ⟨.error (.GasError e), st, txm⟩
  | .ok unshield_gas_meter =>
    let inner : Except Error Bool × LedgerState × TxGasMeter :=
      match env.generate_fee_unshielding wrapper
          (get_transfer_hash_from_storage st) transaction with
      | .error _ => (.ok false, st, unshield_gas_meter)
      | .ok fee_unshielding_tx =>
        let st₁ := { st with write_log := st.write_log.precommit_tx }
        let out := apply_wasm_tx env fee_unshielding_tx 0 st₁ unshield_gas_meter
        match out.res with
        | .ok result =>
          if result.is_accepted then (.ok true, out.st, out.txm)
          else
            (.ok false,
             { out.st with write_log := out.st.write_log.drop_tx_keep_precommit },
             out.txm)
        | .error e =>
          let st₂ :=
            { out.st with write_log := out.st.write_log.drop_tx_keep_precommit }
          (fee_unshield_runner_error e, st₂, out.txm)
    match inner with
    | (.error e, st₂, _) => ⟨.error e, st₂, txm⟩
    | (.ok result, st₂, ugm₂) =>
      match txm.copy_consumed_gas_from ugm₂ with
      | .error e => ⟨.error (.GasError e), st₂, txm⟩
      | .ok txm₂ => ⟨.ok result, st₂, txm₂⟩

/-- The `WrapperArgs` record threaded through wrapper execution. -/
structure WrapperArgs where
  block_proposer : Address
  is_committed_fee_unshield : Bool
deriving DecidableEq

/-- Result of `charge_fee`. -/
structure ChargeFeeOut where
  res : Except Error Unit
  st : LedgerState
  txm : TxGasMeter
  changed_keys : List Key
  wrapper_args : Option WrapperArgs

/-- `charge_fee`: run the fee unshielding when a MASP transaction was
selected (remembering its outcome without propagating it yet), then charge
(`transfer_fee`, block proposer known) or check (`check_fees`) the fees,
extend the changed keys with the tx and precommit keys, commit the tx
write-log, and only then publish the unshielding outcome into
`wrapper_args.is_committed_fee_unshield`, propagating a deferred
unshielding gas error. A fee-step error propagates before the commit. -/
def charge_fee (env : ProtocolEnv) (wrapper : WrapperTx)
    (masp_transaction : Option Transaction) (st : LedgerState)
    (txm : TxGasMeter) (changed_keys : List Key)
    (wrapper_args : Option WrapperArgs) : ChargeFeeOut :=
  let unshield : Except Error Bool × LedgerState × TxGasMeter :=
    match masp_transaction with
    | some transaction =>
      let out := run_fee_unshielding env wrapper st txm transaction
      (out.res, out.st, out.txm)
    | none => (.ok false, st, txm)
  match unshield with
  | (valid_fee_unshielding, st₁, txm₁) =>
    let fee_step : Except Error Unit × LedgerState :=
      match wrapper_args with
      | some args => transfer_fee env st₁ args.block_proposer wrapper
      | none => (check_fees env st₁ wrapper, st₁)
    match fee_step with
    | (.error e, st₂) => ⟨.error e, st₂, txm₁, changed_keys, wrapper_args⟩
    | (.ok (), st₂) =>
      let changed_keys₁ := changed_keys ++ st₂.write_log.get_keys_with_precommit
      let st₃ := { st₂ with write_log := st₂.write_log.commit_tx }
      match wrapper_args with
      | some args =>
        match valid_fee_unshielding with
        | .error e => ⟨.error e, st₃, txm₁, changed_keys₁, some args⟩
        | .ok b =>
          ⟨.ok (), st₃, txm₁, changed_keys₁,
           some { args with is_committed_fee_unshield := b }⟩
      | none => ⟨.ok (), st₃, txm₁, changed_keys₁, none⟩

/-- Result of `apply_wrapper_tx`. -/
structure ApplyWrapperOut where
  res : Except Error (List Key)
  st : LedgerState
  txm : TxGasMeter
  wrapper_args : Option WrapperArgs

/-- `apply_wrapper_tx`: write the wrapper's header hash into the
replay-protection index (before any fallible step), charge the fee, and
account for the wrapper gas. -/
def apply_wrapper_tx (env : ProtocolEnv) (tx : Tx) (wrapper : WrapperTx)
    (fee_unshield_transaction : Option Transaction) (tx_bytes_len : Nat)
    (st : LedgerState) (txm : TxGasMeter)
    (wrapper_args : Option WrapperArgs) : ApplyWrapperOut :=
  let changed_keys : List Key := []
  let st₀ := { st with write_log := st.write_log.write_tx_hash tx.header_hash }
  let fee_out := charge_fee env wrapper fee_unshield_transaction st₀ txm
      changed_keys wrapper_args
  match fee_out.res with
  | .error e => ⟨.error e, fee_out.st, fee_out.txm, fee_out.wrapper_args⟩
  | .ok () =>
    match fee_out.txm.add_wrapper_gas tx_bytes_len with
    | .error e =>
      ⟨.error (.GasError e), fee_out.st, fee_out.txm, fee_out.wrapper_args⟩
    | .ok txm₂ =>
      ⟨.ok fee_out.changed_keys, fee_out.st, txm₂, fee_out.wrapper_args⟩

/-- Result of `apply_protocol_tx`. -/
structure ApplyProtocolOut where
  res : Except Error TxResult
  st : LedgerState

/-- `apply_protocol_tx`: protocol transactions must carry data; the data is
deserialized into an `EthereumTxData`, the vote-extension variants are
folded into storage by the Ethereum-bridge transactions module, and the
remaining variants are unimplemented no-ops returning an empty
`TxResult`. -/
def apply_protocol_tx (env : ProtocolEnv) (tx : ProtocolTxType)
    (data : Option (List Nat)) (st : LedgerState) : ApplyProtocolOut :=
  match data with
  | none => ⟨.error (.ProtocolTxError "Protocol tx data must be present"), st⟩
  | some d =>
    match env.deserialize_eth tx d with
    | .error e => ⟨.error (.ProtocolTxError e), st⟩
    | .ok (.EthEventsVext v) =>
      let (r, st₁) := env.apply_eth_events_tx st v
      ⟨r.mapError Error.ProtocolTxError, st₁⟩
    | .ok (.BridgePoolVext v) =>
      let (r, st₁) := env.apply_bridge_pool_tx st v
      ⟨r.mapError Error.ProtocolTxError, st₁⟩
    | .ok (.ValSetUpdateVext v) =>
      let (r, st₁) := env.apply_valset_upd_tx st v
      ⟨r.mapError Error.ProtocolTxError, st₁⟩
    | .ok (.EthereumEvents _) => ⟨.ok TxResult.default, st⟩
    | .ok (.BridgePool _) => ⟨.ok TxResult.default, st⟩
    | .ok (.ValidatorSetUpdate _) => ⟨.ok TxResult.default, st⟩

/-- The errors on which the per-verifier closure of `execute_vps` aborts
the whole fold (its `?` operators and early `return`): gas exhaustion, a
state error from the VP code-hash lookup, and a missing VP code hash. -/
def aborting_error : Error → Bool
  | .GasError _ => true
  | .StateError _ => true
  | .MissingAddress _ => true
  | _ => false

/-- An empty write-log. -/
def WriteLog.empty : WriteLog :=
  { tx_buffer := [], precommit_buffer := [], block_buffer := [],
    replay_protection := [], ibc_events := [], initialized_accounts := [] }

/-- An empty ledger state. -/
def LedgerState.empty : LedgerState :=
  { storage := [], write_log := WriteLog.empty }

/-- A benign environment for concrete evaluations: every oracle succeeds
trivially and consumes no gas. -/
def env₀ : ProtocolEnv where
  validity_predicate := fun _ => .ok (some 0, 0)
  run_wasm_vp := fun _ _ => (.accept, 0)
  run_native_vp := fun _ => (.ok (), 0)
  run_tx := fun _ _ st txm => ⟨.ok [], st, txm⟩
  verifiers_and_changed_keys := fun _ vs => (vs, [])
  denom_to_amount := fun n _ _ => .ok n
  generate_fee_unshielding := fun _ _ _ => .ok ⟨0, 0, []⟩
  deserialize_eth := fun _ _ => .error "unsupported protocol transaction"
  apply_eth_events_tx := fun st _ => (.ok TxResult.default, st)
  apply_bridge_pool_tx := fun st _ => (.ok TxResult.default, st)
  apply_valset_upd_tx := fun st _ => (.ok TxResult.default, st)

/-- An environment in which no address has a VP code hash bound
(`validity_predicate` returns no hash). -/
def envC1 : ProtocolEnv :=
  { env₀ with validity_predicate := fun _ => .ok (none, 0) }

/-- An environment in which the sandboxed VP of `Established 0` fails with
a non-gas runner error and every other sandboxed VP accepts. -/
def envW1 : ProtocolEnv :=
  { env₀ with run_wasm_vp := fun _ a =>
      match a with
      | .Established 0 => (.other_error "boom", 1)
      | _ => (.accept, 1) }

/-- The `VpsResult` produced by `execute_vps` under `envW1` on the
verifier list `[Established 0, Established 1]` with a 100-gas meter. -/
def c1_res : VpsResult :=
  { accepted_vps := [Address.Established 1]
    rejected_vps := [Address.Established 0]
    gas_used := 2
    errors := [(Address.Established 0, "Error executing VP: boom")]
    status_flags := false }

/-- A verifier list holding a sentinel, an IBC token address and the
`Multitoken` co-verifier. -/
def c6_vs : List Address :=
  [Address.Internal .PosSlashPool, Address.Internal (.IbcToken 7),
   Address.Internal .Multitoken]

/-- The `VpsResult` produced by `execute_vps` under `env₀` on `c6_vs`. -/
def c6_res : VpsResult :=
  { accepted_vps := [Address.Internal .Multitoken, Address.Internal (.IbcToken 7)]
    rejected_vps := [Address.Internal .PosSlashPool]
    gas_used := 0
    errors := [(Address.Internal .PosSlashPool,
                "Access to an internal address is forbidden")]
    status_flags := false }

/-- A verifier list holding a sentinel and an ERC20 token address without
the `Multitoken` co-verifier. -/
def c6b_vs : List Address :=
  [Address.Internal .TempStorage, Address.Internal (.Erc20 3)]

/-- A ledger state whose committed storage gives `Established 1` a balance
of 5 in token `Established 0`. -/
def c7_st : LedgerState :=
  { storage := [(Key.balance (Address.Established 0) (Address.Established 1), 5)],
    write_log := WriteLog.empty }

/-- A wrapper paying 1 token per gas unit over a gas limit of 5 in token
`Established 0` from fee payer `Established 1`. -/
def c4_wrapper : WrapperTx :=
  { fee := { amount_per_gas_unit := 1, token := Address.Established 0 },
    fee_payer_address := Address.Established 1,
    gas_limit := 5,
    unshield_section_hash := none }

/-- A wrapper like `c4_wrapper` but with fees (20) exceeding the payer's
balance. -/
def c4_wrapper_20 : WrapperTx :=
  { c4_wrapper with gas_limit := 20 }

/-- A ledger state in which the fee payer `Established 1` holds 10 tokens
and the block proposer `Established 2` already holds the maximal
representable amount, so that crediting the fee overflows. -/
def c4_st : LedgerState :=
  { storage := [(Key.balance (Address.Established 0) (Address.Established 1), 10),
                (Key.balance (Address.Established 0) (Address.Established 2),
                 AMOUNT_MAX)],
    write_log := WriteLog.empty }

/-- A ledger state in which the fee payer `Established 1` holds 10 tokens
and the block proposer `Established 2` holds nothing. -/
def c4w_st : LedgerState :=
  { storage := [(Key.balance (Address.Established 0) (Address.Established 1), 10)],
    write_log := WriteLog.empty }

/-- A ledger state whose storage sets the `fee_unshielding_gas_limit`
protocol parameter to 50. -/
def c5_st : LedgerState :=
  { storage := [(fee_unshielding_gas_limit_key, 50)],
    write_log := WriteLog.empty }

/-- A gas meter with ceiling 100 that has already consumed 7 gas. -/
def txm₅ : TxGasMeter := { tx_gas_limit := 100, transaction_gas := 7 }

/-- An environment whose payload runner requests the `PosSlashPool`
sentinel as verifier, making the sub-execution's VPs reject it. -/
def envC5a : ProtocolEnv :=
  { env₀ with run_tx := fun _ _ st txm =>
      ⟨.ok [Address.Internal .PosSlashPool], st, txm⟩ }

/-- An environment whose payload runner fails with a non-gas error. -/
def envC5b : ProtocolEnv :=
  { env₀ with run_tx := fun _ _ st txm => ⟨.error (.Other "crash"), st, txm⟩ }

/-- An environment whose payload runner consumes 9 gas and then fails
with a gas error. -/
def envC3x : ProtocolEnv :=
  { env₀ with run_tx := fun _ _ st txm =>
      ⟨.error (.GasError "oog"), st,
       { txm with transaction_gas := txm.transaction_gas + 9 }⟩ }

/-- The `TxResult` of the fee-unshielding sub-execution under `envC5a`:
the `PosSlashPool` verifier is rejected, so the result is not accepted. -/
def c5a_res : TxResult :=
  { gas_used := 7
    wrapper_changed_keys := []
    changed_keys := []
    vps_result :=
      { accepted_vps := []
        rejected_vps := [Address.Internal .PosSlashPool]
        gas_used := 0
        errors := [(Address.Internal .PosSlashPool,
                    "Access to an internal address is forbidden")]
        status_flags := false }
    initialized_accounts := []
    ibc_events := []
    eth_bridge_events := [] }

/-- A ledger state in which the fee payer `Established 1` holds only 5
tokens, not enough for the 20-token fee of `c4_wrapper_20`. -/
def c2_st : LedgerState :=
  { storage := [(Key.balance (Address.Established 0) (Address.Established 1), 5)],
    write_log := WriteLog.empty }

/-- A wrapper transaction descriptor with header hash 11. -/
def tx₂ : Tx := { header_hash := 11, raw_header_hash := 12, sections := [] }

/-- The state after `transfer_fee` moves the 5-token fee of `c4_wrapper`
from the payer to the proposer on `c4w_st`: both balance writes sit in the
tx buffer. -/
def c10_mid : LedgerState :=
  { storage := [(Key.balance (Address.Established 0) (Address.Established 1), 10)],
    write_log :=
      { tx_buffer :=
          [(Key.balance (Address.Established 0) (Address.Established 2), 5),
           (Key.balance (Address.Established 0) (Address.Established 1), 5)],
        precommit_buffer := [],
        block_buffer := [],
        replay_protection := [],
        ibc_events := [],
        initialized_accounts := [] } }

/-- A ledger state whose replay-protection index already holds hash 5. -/
def c8_st : LedgerState :=
  { storage := [],
    write_log := { WriteLog.empty with replay_protection := [5] } }

/-- An environment whose protocol-transaction deserializer produces each
of the three unimplemented `EthereumTxData` variants depending on the
input data. -/
def env₉ : ProtocolEnv :=
  { env₀ with deserialize_eth := fun _ d =>
      match d with
      | [0] => .ok (.EthereumEvents 0)
      | [1] => .ok (.BridgePool 0)
      | _ => .ok (.ValidatorSetUpdate 0) }

/-- The `VpsResult` produced by `execute_vps` under `env₀` on `c6b_vs`. -/
def c6b_res : VpsResult :=
  { accepted_vps := []
    rejected_vps := [Address.Internal (.Erc20 3), Address.Internal .TempStorage]
    gas_used := 0
    errors := [(Address.Internal .TempStorage,
                "Access to an internal address is forbidden"),
               (Address.Internal (.Erc20 3),
                "Access to an internal address is forbidden")]
    status_flags := false }

end NamadaProtocol

namespace NamadaProtocol

/-! ## Properties of `execute_vps` -/

/-- An aborted per-verifier evaluation always carries a gas error, a state
error, or a missing VP code hash. -/
theorem eval_tx_accepted_error (env : ProtocolEnv) (vs : List Address)
    (gm : VpGasMeter) (addr : Address) (e : Error)
    (h : eval_tx_accepted env vs gm addr = .error e) : aborting_error e = true := by
  unfold eval_tx_accepted at h
  cases addr <;> (try (repeat' split at h)) <;> (cases h <;> rfl)

/-- Characterization of a successful fold step of `execute_vps`: the
verifier's evaluation did not abort, and the verifier was recorded in
exactly one of the accepted or rejected sets (with its error message
appended in the rejected case). -/
theorem execute_vps_step_ok (env : ProtocolEnv) (vs : List Address)
    (txm : TxGasMeter) (res : VpsResult) (addr : Address) (out : VpsResult)
    (h : execute_vps_step env vs txm res addr = .ok out) :
    ∃ ta gm₁,
      eval_tx_accepted env vs (VpGasMeter.new_from_tx_meter txm) addr = .ok (ta, gm₁) ∧
      ((ta = .ok () ∧ out.accepted_vps = res.accepted_vps.insert addr ∧
        out.rejected_vps = res.rejected_vps ∧ out.errors = res.errors) ∨
       (∃ e, ta = .error e ∧ out.accepted_vps = res.accepted_vps ∧
        out.rejected_vps = res.rejected_vps.insert addr ∧
        out.errors = res.errors ++ [(addr, e.toMessage)])) := by
  simp only [execute_vps_step] at h
  cases he : eval_tx_accepted env vs (VpGasMeter.new_from_tx_meter txm) addr with
  | error e => rw [he] at h; exact absurd h (by simp)
  | ok p =>
    obtain ⟨ta, gm₁⟩ := p
    rw [he] at h
    refine ⟨ta, gm₁, rfl, ?_⟩
    cases ta with
    | ok u =>
      cases u
      left
      simp only at h
      split at h
      · exact absurd h (by simp)
      · cases h
        simp
    | error err =>
      right
      refine ⟨err, rfl, ?_⟩
      simp only at h
      split at h
      · exact absurd h (by simp)
      · cases h
        simp

/-- An aborted fold step of `execute_vps` always carries an aborting
error (gas, state, or missing VP code hash). -/
theorem execute_vps_step_error (env : ProtocolEnv) (vs : List Address)
    (txm : TxGasMeter) (res : VpsResult) (addr : Address) (e : Error)
    (h : execute_vps_step env vs txm res addr = .error e) :
    aborting_error e = true := by
  simp only [execute_vps_step] at h
  cases he : eval_tx_accepted env vs (VpGasMeter.new_from_tx_meter txm) addr with
  | error e₁ =>
    rw [he] at h
    cases h
    exact eval_tx_accepted_error env vs _ addr _ he
  | ok p =>
    obtain ⟨ta, gm₁⟩ := p
    rw [he] at h
    simp only at h
    split at h
    · cases h; rfl
    · exact absurd h (by simp)

/-- An aborted `execute_vps` fold always carries an aborting error. -/
theorem execute_vps_fold_error (env : ProtocolEnv) (vs : List Address)
    (txm : TxGasMeter) (l : List Address) (res : VpsResult) (e : Error)
    (h : execute_vps_fold env vs txm l res = .error e) :
    aborting_error e = true := by
  induction l generalizing res with
  | nil => exact absurd h (by simp [execute_vps_fold])
  | cons a rest ih =>
    unfold execute_vps_fold at h
    cases hs : execute_vps_step env vs txm res a with
    | error e₁ =>
      rw [hs] at h
      cases h
      exact execute_vps_step_error env vs txm res a _ hs
    | ok r =>
      rw [hs] at h
      exact ih r h

/-- The `execute_vps` fold only grows the accepted set, the rejected set
and the error list. -/
theorem execute_vps_fold_mono (env : ProtocolEnv) (vs : List Address)
    (txm : TxGasMeter) (l : List Address) (res out : VpsResult)
    (h : execute_vps_fold env vs txm l res = .ok out) :
    (∀ a, a ∈ res.accepted_vps → a ∈ out.accepted_vps) ∧
    (∀ a, a ∈ res.rejected_vps → a ∈ out.rejected_vps) ∧
    (∀ p, p ∈ res.errors → p ∈ out.errors) := by
  induction l generalizing res with
  | nil =>
    unfold execute_vps_fold at h
    cases h
    exact ⟨fun _ ha => ha, fun _ ha => ha, fun _ ha => ha⟩
  | cons a rest ih =>
    unfold execute_vps_fold at h
    cases hs : execute_vps_step env vs txm res a with
    | error e₁ => rw [hs] at h; exact absurd h (by simp)
    | ok r =>
      rw [hs] at h
      obtain ⟨ta, gm₁, _, hcase⟩ := execute_vps_step_ok env vs txm res a r hs
      have ihr := ih r h
      rcases hcase with ⟨_, hacc, hrej, herr⟩ | ⟨e, _, hacc, hrej, herr⟩
      · refine ⟨fun b hb => ihr.1 b ?_, fun b hb => ihr.2.1 b ?_, fun p hp => ihr.2.2 p ?_⟩
        · rw [hacc]; exact List.mem_insert_of_mem hb
        · rw [hrej]; exact hb
        · rw [herr]; exact hp
      · refine ⟨fun b hb => ihr.1 b ?_, fun b hb => ihr.2.1 b ?_, fun p hp => ihr.2.2 p ?_⟩
        · rw [hacc]; exact hb
        · rw [hrej]; exact List.mem_insert_of_mem hb
        · rw [herr]; exact List.mem_append_left _ hp

/-- In a completed `execute_vps` fold, every verifier of the folded list
was evaluated without aborting, and was placed in the accepted set when
its evaluation accepted and in the rejected set (with its error message
recorded) when its evaluation rejected. -/
theorem execute_vps_fold_placement (env : ProtocolEnv) (vs : List Address)
    (txm : TxGasMeter) (l : List Address) (res out : VpsResult)
    (h : execute_vps_fold env vs txm l res = .ok out) :
    ∀ a ∈ l, ∃ ta gm₁,
      eval_tx_accepted env vs (VpGasMeter.new_from_tx_meter txm) a = .ok (ta, gm₁) ∧
      ((ta = .ok () ∧ a ∈ out.accepted_vps) ∨
       (∃ e, ta = .error e ∧ a ∈ out.rejected_vps ∧ (a, e.toMessage) ∈ out.errors)) := by
  induction l generalizing res with
  | nil => intro a ha; exact absurd ha (by simp)
  | cons b rest ih =>
    intro a ha
    unfold execute_vps_fold at h
    cases hs : execute_vps_step env vs txm res b with
    | error e₁ => rw [hs] at h; exact absurd h (by simp)
    | ok r =>
      rw [hs] at h
      rcases List.mem_cons.mp ha with rfl | ha₁
      · obtain ⟨ta, gm₁, he, hcase⟩ := execute_vps_step_ok env vs txm res a r hs
        have hm := execute_vps_fold_mono env vs txm rest r out h
        refine ⟨ta, gm₁, he, ?_⟩
        rcases hcase with ⟨hta, hacc, _, _⟩ | ⟨e, hta, _, hrej, herr⟩
        · exact Or.inl ⟨hta, hm.1 a (by rw [hacc]; exact List.mem_insert_self a _)⟩
        · refine Or.inr ⟨e, hta, hm.2.1 a (by rw [hrej]; exact List.mem_insert_self a _), ?_⟩
          exact hm.2.2 (a, e.toMessage) (by rw [herr]; exact List.mem_append_right _ (by simp))
      · exact ih r h a ha₁

/-- Members of the accepted or rejected set of a completed `execute_vps`
fold come from the initial accumulator or from the folded list. -/
theorem execute_vps_fold_subset (env : ProtocolEnv) (vs : List Address)
    (txm : TxGasMeter) (l : List Address) (res out : VpsResult)
    (h : execute_vps_fold env vs txm l res = .ok out) :
    (∀ a, a ∈ out.accepted_vps → a ∈ res.accepted_vps ∨ a ∈ l) ∧
    (∀ a, a ∈ out.rejected_vps → a ∈ res.rejected_vps ∨ a ∈ l) := by
  induction l generalizing res with
  | nil =>
    unfold execute_vps_fold at h
    cases h
    exact ⟨fun a ha => Or.inl ha, fun a ha => Or.inl ha⟩
  | cons b rest ih =>
    unfold execute_vps_fold at h
    cases hs : execute_vps_step env vs txm res b with
    | error e₁ => rw [hs] at h; exact absurd h (by simp)
    | ok r =>
      rw [hs] at h
      obtain ⟨ta, gm₁, _, hcase⟩ := execute_vps_step_ok env vs txm res b r hs
      have ihr := ih r h
      constructor
      · intro a ha
        rcases ihr.1 a ha with hr | hl
        · rcases hcase with ⟨_, hacc, _, _⟩ | ⟨e, _, hacc, _, _⟩
          · rw [hacc] at hr
            rcases List.mem_insert_iff.mp hr with rfl | hres
            · exact Or.inr (List.mem_cons_self _ _)
            · exact Or.inl hres
          · rw [hacc] at hr; exact Or.inl hr
        · exact Or.inr (List.mem_cons_of_mem _ hl)
      · intro a ha
        rcases ihr.2 a ha with hr | hl
        · rcases hcase with ⟨_, _, hrej, _⟩ | ⟨e, _, _, hrej, _⟩
          · rw [hrej] at hr; exact Or.inl hr
          · rw [hrej] at hr
            rcases List.mem_insert_iff.mp hr with rfl | hres
            · exact Or.inr (List.mem_cons_self _ _)
            · exact Or.inl hres
        · exact Or.inr (List.mem_cons_of_mem _ hl)

/-- A completed `execute_vps` fold keeps the accepted and rejected sets
disjoint, provided the folded verifiers are distinct and fresh. -/
theorem execute_vps_fold_disjoint (env : ProtocolEnv) (vs : List Address)
    (txm : TxGasMeter) (l : List Address) (res out : VpsResult)
    (hnd : l.Nodup)
    (hfresh : ∀ a ∈ l, a ∉ res.accepted_vps ∧ a ∉ res.rejected_vps)
    (hdis : ∀ a, ¬(a ∈ res.accepted_vps ∧ a ∈ res.rejected_vps))
    (h : execute_vps_fold env vs txm l res = .ok out) :
    ∀ a, ¬(a ∈ out.accepted_vps ∧ a ∈ out.rejected_vps) := by
  induction l generalizing res with
  | nil =>
    unfold execute_vps_fold at h
    cases h
    exact hdis
  | cons b rest ih =>
    unfold execute_vps_fold at h
    cases hs : execute_vps_step env vs txm res b with
    | error e₁ => rw [hs] at h; exact absurd h (by simp)
    | ok r =>
      rw [hs] at h
      obtain ⟨ta, gm₁, _, hcase⟩ := execute_vps_step_ok env vs txm res b r hs
      have hb := hfresh b (List.mem_cons_self _ _)
      refine ih r (List.nodup_cons.mp hnd).2 ?_ ?_ h
      · intro a ha
        have hab : a ≠ b := fun hab => (List.nodup_cons.mp hnd).1 (hab ▸ ha)
        have hfa := hfresh a (List.mem_cons_of_mem _ ha)
        rcases hcase with ⟨_, hacc, hrej, _⟩ | ⟨e, _, hacc, hrej, _⟩
        · refine ⟨?_, ?_⟩
          · rw [hacc]
            intro hmem
            rcases List.mem_insert_iff.mp hmem with heq | hmem₁
            · exact hab heq
            · exact hfa.1 hmem₁
          · rw [hrej]; exact hfa.2
        · refine ⟨?_, ?_⟩
          · rw [hacc]; exact hfa.1
          · rw [hrej]
            intro hmem
            rcases List.mem_insert_iff.mp hmem with heq | hmem₁
            · exact hab heq
            · exact hfa.2 hmem₁
      · intro a
        rcases hcase with ⟨_, hacc, hrej, _⟩ | ⟨e, _, hacc, hrej, _⟩
        · rw [hacc, hrej]
          rintro ⟨hmem, hmem₂⟩
          rcases List.mem_insert_iff.mp hmem with rfl | hmem₁
          · exact hb.2 hmem₂
          · exact hdis a ⟨hmem₁, hmem₂⟩
        · rw [hacc, hrej]
          rintro ⟨hmem, hmem₂⟩
          rcases List.mem_insert_iff.mp hmem₂ with rfl | hmem₁
          · exact hb.1 hmem
          · exact hdis a ⟨hmem, hmem₁⟩

/-- The accepted and rejected sets of a successful `execute_vps` run are
disjoint when the verifier list has no duplicates. -/
theorem execute_vps_ok_disjoint (env : ProtocolEnv) (vs : List Address)
    (txm : TxGasMeter) (r : VpsResult) (hnd : vs.Nodup)
    (h : execute_vps env vs txm = .ok r) :
    ∀ a, ¬(a ∈ r.accepted_vps ∧ a ∈ r.rejected_vps) := by
  unfold execute_vps at h
  exact execute_vps_fold_disjoint env vs txm vs VpsResult.default r hnd
    (fun a _ => ⟨by simp [VpsResult.default], by simp [VpsResult.default]⟩)
    (fun a => by simp [VpsResult.default]) h

/-- A verifier whose evaluation rejects with error `e` ends up in the
rejected set (and not the accepted set) of a successful `execute_vps`
run, with its message recorded in the error list. -/
theorem execute_vps_ok_rejected (env : ProtocolEnv) (vs : List Address)
    (txm : TxGasMeter) (r : VpsResult) (hnd : vs.Nodup)
    (h : execute_vps env vs txm = .ok r) (a : Address) (ha : a ∈ vs)
    (e : Error) (gm₂ : VpGasMeter)
    (hev : eval_tx_accepted env vs (VpGasMeter.new_from_tx_meter txm) a =
      .ok (.error e, gm₂)) :
    a ∈ r.rejected_vps ∧ a ∉ r.accepted_vps ∧ (a, e.toMessage) ∈ r.errors := by
  have hd := execute_vps_ok_disjoint env vs txm r hnd h
  unfold execute_vps at h
  obtain ⟨ta, gm₁, he, hcase⟩ :=
    execute_vps_fold_placement env vs txm vs VpsResult.default r h a ha
  have hpair := he.symm.trans hev
  simp only [Except.ok.injEq, Prod.mk.injEq] at hpair
  rcases hcase with ⟨h₁, _⟩ | ⟨e₁, h₁, hrej, herr⟩
  · rw [hpair.1] at h₁; exact absurd h₁ (by simp)
  · have he₁ : e₁ = e := by
      rw [hpair.1] at h₁
      exact (Except.error.inj h₁).symm
    subst he₁
    exact ⟨hrej, fun hacc => hd a ⟨hacc, hrej⟩, herr⟩

/-- A verifier whose evaluation accepts ends up in the accepted set (and
not the rejected set) of a successful `execute_vps` run. -/
theorem execute_vps_ok_accepted (env : ProtocolEnv) (vs : List Address)
    (txm : TxGasMeter) (r : VpsResult) (hnd : vs.Nodup)
    (h : execute_vps env vs txm = .ok r) (a : Address) (ha : a ∈ vs)
    (gm₂ : VpGasMeter)
    (hev : eval_tx_accepted env vs (VpGasMeter.new_from_tx_meter txm) a =
      .ok (.ok (), gm₂)) :
    a ∈ r.accepted_vps ∧ a ∉ r.rejected_vps := by
  have hd := execute_vps_ok_disjoint env vs txm r hnd h
  unfold execute_vps at h
  obtain ⟨ta, gm₁, he, hcase⟩ :=
    execute_vps_fold_placement env vs txm vs VpsResult.default r h a ha
  have hpair := he.symm.trans hev
  simp only [Except.ok.injEq, Prod.mk.injEq] at hpair
  rcases hcase with ⟨h₁, hacc⟩ | ⟨e₁, h₁, _, _⟩
  · exact ⟨hacc, fun hrej => hd a ⟨hacc, hrej⟩⟩
  · rw [hpair.1] at h₁; exact absurd h₁ (by simp)

/-- Claim C1 (counterexample): contrary to the claim, a `Gas` error is not
the only condition that makes `execute_vps` abort with `Err`. Here the
first verifier fails for a non-gas reason — its VP code hash is missing —
and `execute_vps` aborts with `MissingAddress`, so the second verifier is
never evaluated and appears in neither `accepted_vps` nor `rejected_vps`
of any returned `VpsResult`. -/
theorem execute_vps_missing_vp_hash_aborts :
    execute_vps envC1 [Address.Established 0, Address.Established 1]
      { tx_gas_limit := 100, transaction_gas := 0 } =
      .error (.MissingAddress (.Established 0)) := by
  rfl

/-- Claim C1 (amended): when `execute_vps` returns a `VpsResult`, every
verifier of the (duplicate-free) verifier set appears in exactly one of
`accepted_vps` and `rejected_vps`; errors of the VP run itself (sandbox
errors, invalid section signatures, native-VP rejections, sentinel
`AccessForbidden`) are recorded there without aborting, and `execute_vps`
aborts with `Err` only on a gas error, a state error from the VP
code-hash lookup, or a missing VP code hash. -/
theorem execute_vps_nongas_completeness_gas_abort (env : ProtocolEnv)
    (vs : List Address) (txm : TxGasMeter) (hnd : vs.Nodup) :
    (∀ r, execute_vps env vs txm = .ok r → ∀ a ∈ vs,
        (a ∈ r.accepted_vps ∧ a ∉ r.rejected_vps) ∨
        (a ∈ r.rejected_vps ∧ a ∉ r.accepted_vps)) ∧
    (∀ e, execute_vps env vs txm = .error e → aborting_error e = true) := by
  constructor
  · intro r h a ha
    have hd := execute_vps_ok_disjoint env vs txm r hnd h
    unfold execute_vps at h
    obtain ⟨ta, gm₁, _, hcase⟩ :=
      execute_vps_fold_placement env vs txm vs VpsResult.default r h a ha
    rcases hcase with ⟨_, hacc⟩ | ⟨e, _, hrej, _⟩
    · exact Or.inl ⟨hacc, fun hr => hd a ⟨hacc, hr⟩⟩
    · exact Or.inr ⟨hrej, fun hacc₂ => hd a ⟨hacc₂, hrej⟩⟩
  · intro e h
    unfold execute_vps at h
    exact execute_vps_fold_error env vs txm vs VpsResult.default e h

/-- Witness for the amended C1 theorem at a concrete input: under `envW1`
the first verifier rejects for a non-gas reason, the run still returns a
`VpsResult`, and the second verifier appears in exactly one of the two
sets. -/
theorem execute_vps_nongas_completeness_gas_abort_witness :
    (Address.Established 1 ∈ c1_res.accepted_vps ∧
     Address.Established 1 ∉ c1_res.rejected_vps) ∨
    (Address.Established 1 ∈ c1_res.rejected_vps ∧
     Address.Established 1 ∉ c1_res.accepted_vps) :=
  (execute_vps_nongas_completeness_gas_abort envW1
      [Address.Established 0, Address.Established 1]
      { tx_gas_limit := 100, transaction_gas := 0 } (by decide)).1
    c1_res (by rfl) (Address.Established 1) (by decide)

/-- Claim C6: in any completed `execute_vps` run over a duplicate-free
verifier set, a `PosSlashPool` or `TempStorage` verifier is always placed
in `rejected_vps` with an `AccessForbidden` error, and an `IbcToken` or
`Erc20` verifier is placed in `accepted_vps` exactly when the `Multitoken`
internal address is also in the verifier set, otherwise in `rejected_vps`
with an `AccessForbidden` error. -/
theorem execute_vps_sentinel_addresses (env : ProtocolEnv) (vs : List Address)
    (txm : TxGasMeter) (r : VpsResult) (hnd : vs.Nodup)
    (h : execute_vps env vs txm = .ok r) :
    (∀ ia, (ia = InternalAddress.PosSlashPool ∨ ia = InternalAddress.TempStorage) →
      Address.Internal ia ∈ vs →
      Address.Internal ia ∈ r.rejected_vps ∧ Address.Internal ia ∉ r.accepted_vps ∧
      (Address.Internal ia, (Error.AccessForbidden ia).toMessage) ∈ r.errors) ∧
    (∀ ia, (∃ t, ia = InternalAddress.IbcToken t ∨ ia = InternalAddress.Erc20 t) →
      Address.Internal ia ∈ vs →
      (Address.Internal InternalAddress.Multitoken ∈ vs →
        Address.Internal ia ∈ r.accepted_vps ∧ Address.Internal ia ∉ r.rejected_vps) ∧
      (Address.Internal InternalAddress.Multitoken ∉ vs →
        Address.Internal ia ∈ r.rejected_vps ∧ Address.Internal ia ∉ r.accepted_vps ∧
        (Address.Internal ia, (Error.AccessForbidden ia).toMessage) ∈ r.errors)) := by
  constructor
  · rintro ia (rfl | rfl) hmem
    · exact execute_vps_ok_rejected env vs txm r hnd h _ hmem
        (.AccessForbidden .PosSlashPool) (VpGasMeter.new_from_tx_meter txm) rfl
    · exact execute_vps_ok_rejected env vs txm r hnd h _ hmem
        (.AccessForbidden .TempStorage) (VpGasMeter.new_from_tx_meter txm) rfl
  · rintro ia ⟨t, rfl | rfl⟩ hmem
    · have hcomp : eval_tx_accepted env vs (VpGasMeter.new_from_tx_meter txm)
          (Address.Internal (.IbcToken t)) =
          .ok (if Address.Internal .Multitoken ∈ vs then .ok ()
               else .error (.AccessForbidden (.IbcToken t)),
               VpGasMeter.new_from_tx_meter txm) := rfl
      constructor
      · intro hmt
        rw [if_pos hmt] at hcomp
        exact execute_vps_ok_accepted env vs txm r hnd h _ hmem
          (VpGasMeter.new_from_tx_meter txm) hcomp
      · intro hmt
        rw [if_neg hmt] at hcomp
        exact execute_vps_ok_rejected env vs txm r hnd h _ hmem
          (.AccessForbidden (.IbcToken t)) (VpGasMeter.new_from_tx_meter txm) hcomp
    · have hcomp : eval_tx_accepted env vs (VpGasMeter.new_from_tx_meter txm)
          (Address.Internal (.Erc20 t)) =
          .ok (if Address.Internal .Multitoken ∈ vs then .ok ()
               else .error (.AccessForbidden (.Erc20 t)),
               VpGasMeter.new_from_tx_meter txm) := rfl
      constructor
      · intro hmt
        rw [if_pos hmt] at hcomp
        exact execute_vps_ok_accepted env vs txm r hnd h _ hmem
          (VpGasMeter.new_from_tx_meter txm) hcomp
      · intro hmt
        rw [if_neg hmt] at hcomp
        exact execute_vps_ok_rejected env vs txm r hnd h _ hmem
          (.AccessForbidden (.Erc20 t)) (VpGasMeter.new_from_tx_meter txm) hcomp

/-- Witness for the C6 theorem at concrete inputs: with `Multitoken`
present the IBC token verifier is accepted and the `PosSlashPool`
sentinel is rejected with `AccessForbidden`; without `Multitoken` the
ERC20 verifier and the `TempStorage` sentinel are rejected with
`AccessForbidden`. -/
theorem execute_vps_sentinel_addresses_witness :
    (Address.Internal .PosSlashPool ∈ c6_res.rejected_vps ∧
     Address.Internal .PosSlashPool ∉ c6_res.accepted_vps ∧
     (Address.Internal .PosSlashPool,
      (Error.AccessForbidden .PosSlashPool).toMessage) ∈ c6_res.errors) ∧
    (Address.Internal (.IbcToken 7) ∈ c6_res.accepted_vps ∧
     Address.Internal (.IbcToken 7) ∉ c6_res.rejected_vps) ∧
    (Address.Internal (.Erc20 3) ∈ c6b_res.rejected_vps ∧
     Address.Internal (.Erc20 3) ∉ c6b_res.accepted_vps ∧
     (Address.Internal (.Erc20 3),
      (Error.AccessForbidden (.Erc20 3)).toMessage) ∈ c6b_res.errors) := by
  have h₁ := execute_vps_sentinel_addresses env₀ c6_vs
    { tx_gas_limit := 100, transaction_gas := 0 } c6_res (by decide) (by rfl)
  have h₂ := execute_vps_sentinel_addresses env₀ c6b_vs
    { tx_gas_limit := 100, transaction_gas := 0 } c6b_res (by decide) (by rfl)
  refine ⟨h₁.1 _ (Or.inl rfl) (by decide), ?_, ?_⟩
  · exact (h₁.2 _ ⟨7, Or.inl rfl⟩ (by decide)).1 (by decide)
  · exact (h₂.2 _ ⟨3, Or.inr rfl⟩ (by decide)).2 (by decide)

/-! ## Properties of `token_transfer` and `transfer_fee` -/

/-- Reading a key just written to a write-log returns the written value. -/
theorem WriteLog.read_write_eq (wl : WriteLog) (k : Key) (v : Nat) :
    (wl.write k v).read k = some v := by
  simp [WriteLog.read, WriteLog.write, lookup_key]

/-- Reading a different key is unaffected by a write. -/
theorem WriteLog.read_write_ne (wl : WriteLog) (k k₁ : Key) (v : Nat)
    (h : k₁ ≠ k) : (wl.write k v).read k₁ = wl.read k₁ := by
  simp [WriteLog.read, WriteLog.write, lookup_key, h]

/-- Unfolding of `read_balance` on a state whose write-log was replaced. -/
theorem read_balance_set_write_log (st : LedgerState) (wl : WriteLog)
    (token owner : Address) :
    read_balance { st with write_log := wl } token owner =
      ((wl.read (Key.balance token owner)).orElse fun _ =>
        lookup_key st.storage (Key.balance token owner)).getD 0 := rfl

/-- Claim C7 (counterexample): contrary to the claim, `token_transfer`
does not return `Ok` on every self-transfer: when `src = dest` but the
source balance does not cover the amount, the `checked_sub` underflow is
detected first and the transfer fails. -/
theorem token_transfer_self_insufficient_fails :
    token_transfer LedgerState.empty (Address.Established 0)
      (Address.Established 1) (Address.Established 1) 1 =
      .error (.FeeError "Insufficient source balance") := by
  rfl

/-- Claim C7 (amended): `token_transfer` writes balances only through the
tx write-log (committed storage and the block and precommit buffers are
untouched), returns `Ok` without mutation on a self-transfer whose source
balance covers the amount, fails with `Insufficient source balance` when
the source balance is less than the amount, and fails with a destination
overflow error when crediting the destination would overflow. -/
theorem token_transfer_spec (st : LedgerState) (token src dest : Address)
    (amount : Nat) :
    (∀ st₁, token_transfer st token src dest amount = .ok st₁ →
      st₁.storage = st.storage ∧
      st₁.write_log.block_buffer = st.write_log.block_buffer ∧
      st₁.write_log.precommit_buffer = st.write_log.precommit_buffer ∧
      st₁.write_log.replay_protection = st.write_log.replay_protection) ∧
    (src = dest → amount ≤ read_balance st token src →
      token_transfer st token src dest amount = .ok st) ∧
    (read_balance st token src < amount →
      token_transfer st token src dest amount =
        .error (.FeeError "Insufficient source balance")) ∧
    (src ≠ dest → amount ≤ read_balance st token src →
      AMOUNT_MAX < read_balance st token dest + amount →
      token_transfer st token src dest amount =
        .error (.FeeError "The transfer would overflow destination balance")) := by
  refine ⟨?_, ?_, ?_, ?_⟩
  · intro st₁ h
    simp only [token_transfer] at h
    cases hcs : checked_sub (read_balance st token src) amount with
    | none => rw [hcs] at h; exact absurd h (by simp)
    | some ns =>
      rw [hcs] at h
      dsimp only at h
      by_cases hsd : src = dest
      · rw [if_pos hsd] at h
        cases h
        exact ⟨rfl, rfl, rfl, rfl⟩
      · rw [if_neg hsd] at h
        cases hca : checked_add (read_balance st token dest) amount with
        | none => rw [hca] at h; exact absurd h (by simp)
        | some nd =>
          rw [hca] at h
          dsimp only at h
          cases h
          exact ⟨rfl, rfl, rfl, rfl⟩
  · intro hsd hle
    subst hsd
    simp [token_transfer, checked_sub, hle]
  · intro hlt
    simp [token_transfer, checked_sub, Nat.not_le.mpr hlt]
  · intro hsd hle hover
    simp [token_transfer, checked_sub, checked_add, hle, hsd,
      Nat.not_le.mpr hover]

/-- Witness for the C7 theorem at concrete inputs: with a committed
balance of 5, transferring 10 fails with the insufficiency error, and a
self-transfer of 3 succeeds without mutation. -/
theorem token_transfer_spec_witness :
    token_transfer c7_st (Address.Established 0) (Address.Established 1)
      (Address.Established 2) 10 =
      .error (.FeeError "Insufficient source balance") ∧
    token_transfer c7_st (Address.Established 0) (Address.Established 1)
      (Address.Established 1) 3 = .ok c7_st :=
  ⟨(token_transfer_spec c7_st (Address.Established 0) (Address.Established 1)
      (Address.Established 2) 10).2.2.1 (by decide),
   (token_transfer_spec c7_st (Address.Established 0) (Address.Established 1)
      (Address.Established 1) 3).2.1 rfl (by decide)⟩

/-- Claim C4 (counterexample): contrary to the claim, a fee payer balance
covering the fee is not enough for `transfer_fee` to return `Ok`: when
crediting the block proposer would overflow the destination balance, the
transfer fails with a `Fee` error even though the payer's balance (10)
covers the fee (5). -/
theorem transfer_fee_dest_overflow_fails :
    c4_wrapper.get_tx_fee = .ok 5 ∧
    env₀.denom_to_amount 5 c4_wrapper.fee.token c4_st = .ok 5 ∧
    read_balance c4_st c4_wrapper.fee.token c4_wrapper.fee_payer = 10 ∧
    (transfer_fee env₀ c4_st (Address.Established 2) c4_wrapper).1 =
      .error (.FeeError
        "Error while processing transaction's fees: The transfer would overflow destination balance") := by
  refine ⟨rfl, rfl, by decide, by rfl⟩

/-- Claim C4 (amended): when `get_tx_fee` overflows, `transfer_fee` fails
with a `Fee` error and the state is unchanged; when the denominated fee is
covered by the payer's balance and crediting the proposer does not
overflow, exactly the fee is moved from the payer to the proposer and `Ok`
is returned; when the balance is insufficient and crediting it does not
overflow, the whole available balance is moved to the proposer and
`transfer_fee` then fails with a `Fee` error. -/
theorem transfer_fee_spec (env : ProtocolEnv) (st : LedgerState)
    (proposer : Address) (w : WrapperTx) :
    (∀ s, w.get_tx_fee = .error s →
      transfer_fee env st proposer w = (.error (.FeeError s), st)) ∧
    (∀ fd fees, w.get_tx_fee = .ok fd →
      env.denom_to_amount fd w.fee.token st = .ok fees →
      fees ≤ read_balance st w.fee.token w.fee_payer →
      w.fee_payer ≠ proposer →
      read_balance st w.fee.token proposer + fees ≤ AMOUNT_MAX →
      ∃ st₁, transfer_fee env st proposer w = (.ok (), st₁) ∧
        read_balance st₁ w.fee.token w.fee_payer =
          read_balance st w.fee.token w.fee_payer - fees ∧
        read_balance st₁ w.fee.token proposer =
          read_balance st w.fee.token proposer + fees) ∧
    (∀ fd fees, w.get_tx_fee = .ok fd →
      env.denom_to_amount fd w.fee.token st = .ok fees →
      read_balance st w.fee.token w.fee_payer < fees →
      w.fee_payer ≠ proposer →
      read_balance st w.fee.token proposer +
        read_balance st w.fee.token w.fee_payer ≤ AMOUNT_MAX →
      ∃ st₁, transfer_fee env st proposer w =
        (.error (.FeeError
          "Transparent balance of wrapper's signer was insufficient to pay fee. All the available transparent funds have been moved to the block proposer"),
         st₁) ∧
        read_balance st₁ w.fee.token w.fee_payer = 0 ∧
        read_balance st₁ w.fee.token proposer =
          read_balance st w.fee.token proposer +
            read_balance st w.fee.token w.fee_payer) := by
  refine ⟨?_, ?_, ?_⟩
  · intro s hs
    simp [transfer_fee, hs]
  · intro fd fees hfee hdenom hle hne hnoover
    have hkey : Key.balance w.fee.token w.fee_payer ≠
        Key.balance w.fee.token proposer :=
      fun hk => hne (Key.balance.inj hk).2
    have htt : token_transfer st w.fee.token w.fee_payer proposer fees =
        .ok { st with write_log :=
          ((st.write_log.write (Key.balance w.fee.token w.fee_payer)
              (read_balance st w.fee.token w.fee_payer - fees)).write
            (Key.balance w.fee.token proposer)
            (read_balance st w.fee.token proposer + fees)) } := by
      simp [token_transfer, checked_sub, checked_add, hle, hne, hnoover]
    refine ⟨{ st with write_log :=
        ((st.write_log.write (Key.balance w.fee.token w.fee_payer)
            (read_balance st w.fee.token w.fee_payer - fees)).write
          (Key.balance w.fee.token proposer)
          (read_balance st w.fee.token proposer + fees)) }, ?_, ?_, ?_⟩
    · simp [transfer_fee, hfee, hdenom, checked_sub, hle, htt]
    · rw [read_balance_set_write_log, WriteLog.read_write_ne _ _ _ _ hkey,
        WriteLog.read_write_eq]
      simp
    · rw [read_balance_set_write_log, WriteLog.read_write_eq]
      simp
  · intro fd fees hfee hdenom hlt hne hnoover
    have hkey : Key.balance w.fee.token w.fee_payer ≠
        Key.balance w.fee.token proposer :=
      fun hk => hne (Key.balance.inj hk).2
    have htt : token_transfer st w.fee.token w.fee_payer proposer
        (read_balance st w.fee.token w.fee_payer) =
        .ok { st with write_log :=
          ((st.write_log.write (Key.balance w.fee.token w.fee_payer)
              (read_balance st w.fee.token w.fee_payer -
               read_balance st w.fee.token w.fee_payer)).write
            (Key.balance w.fee.token proposer)
            (read_balance st w.fee.token proposer +
             read_balance st w.fee.token w.fee_payer)) } := by
      simp [token_transfer, checked_sub, checked_add, hne, hnoover]
    refine ⟨{ st with write_log :=
        ((st.write_log.write (Key.balance w.fee.token w.fee_payer)
            (read_balance st w.fee.token w.fee_payer -
             read_balance st w.fee.token w.fee_payer)).write
          (Key.balance w.fee.token proposer)
          (read_balance st w.fee.token proposer +
           read_balance st w.fee.token w.fee_payer)) }, ?_, ?_, ?_⟩
    · simp [transfer_fee, hfee, hdenom, checked_sub, Nat.not_le.mpr hlt, htt]
    · rw [read_balance_set_write_log, WriteLog.read_write_ne _ _ _ _ hkey,
        WriteLog.read_write_eq]
      simp
    · rw [read_balance_set_write_log, WriteLog.read_write_eq]
      simp

/-- Witness for the C4 theorem at concrete inputs: with a payer balance of
10 and fees of 5, exactly 5 tokens move to the proposer and `Ok` is
returned; with fees of 20 the whole balance of 10 is drained and the
`Fee` error is returned. -/
theorem transfer_fee_spec_witness :
    (∃ st₁, transfer_fee env₀ c4w_st (Address.Established 2) c4_wrapper =
        (.ok (), st₁) ∧
      read_balance st₁ c4_wrapper.fee.token c4_wrapper.fee_payer =
        read_balance c4w_st c4_wrapper.fee.token c4_wrapper.fee_payer - 5 ∧
      read_balance st₁ c4_wrapper.fee.token (Address.Established 2) =
        read_balance c4w_st c4_wrapper.fee.token (Address.Established 2) + 5) ∧
    (∃ st₁, transfer_fee env₀ c4w_st (Address.Established 2) c4_wrapper_20 =
        (.error (.FeeError
          "Transparent balance of wrapper's signer was insufficient to pay fee. All the available transparent funds have been moved to the block proposer"),
         st₁) ∧
      read_balance st₁ c4_wrapper_20.fee.token c4_wrapper_20.fee_payer = 0 ∧
      read_balance st₁ c4_wrapper_20.fee.token (Address.Established 2) =
        read_balance c4w_st c4_wrapper_20.fee.token (Address.Established 2) +
          read_balance c4w_st c4_wrapper_20.fee.token c4_wrapper_20.fee_payer) :=
  ⟨(transfer_fee_spec env₀ c4w_st (Address.Established 2) c4_wrapper).2.1
      5 5 rfl rfl (by decide) (by decide) (by decide),
   (transfer_fee_spec env₀ c4w_st (Address.Established 2) c4_wrapper_20).2.2
      20 20 rfl rfl (by decide) (by decide) (by decide)⟩

/-! ## Properties of `apply_wasm_tx` and `apply_protocol_tx` -/

/-- Claim C8: when the transaction's raw header hash already has a
replay-protection entry, `apply_wasm_tx` fails with `ReplayAttempt` on
that hash, returning the state and the gas meter unchanged; the result
does not depend on the payload runner or the VPs (the right-hand side
mentions neither), so neither is executed. -/
theorem apply_wasm_tx_replay_attempt (env : ProtocolEnv) (tx : Tx)
    (tx_index : Nat) (st : LedgerState) (txm : TxGasMeter)
    (h : st.write_log.has_replay_protection_entry tx.raw_header_hash = true) :
    apply_wasm_tx env tx tx_index st txm =
      ⟨.error (.ReplayAttempt tx.raw_header_hash), st, txm⟩ := by
  simp [apply_wasm_tx, h]

/-- Witness for the C8 theorem at a concrete input: a transaction whose
raw header hash 5 is already in the replay index is rejected with
`ReplayAttempt 5` and the state is untouched. -/
theorem apply_wasm_tx_replay_attempt_witness :
    apply_wasm_tx env₀ { header_hash := 1, raw_header_hash := 5, sections := [] }
      0 c8_st { tx_gas_limit := 100, transaction_gas := 0 } =
      ⟨.error (.ReplayAttempt 5), c8_st,
       { tx_gas_limit := 100, transaction_gas := 0 }⟩ :=
  apply_wasm_tx_replay_attempt env₀
    { header_hash := 1, raw_header_hash := 5, sections := [] } 0 c8_st
    { tx_gas_limit := 100, transaction_gas := 0 } (by rfl)

/-- Claim C9: `apply_protocol_tx` fails with `ProtocolTxError` when the
data is absent, and the `EthereumEvents`, `BridgePool` and
`ValidatorSetUpdate` variants (those without a vote-extension wrapper) are
no-ops returning the default `TxResult` with the state unchanged. -/
theorem apply_protocol_tx_data_and_noop_variants (env : ProtocolEnv)
    (ptx : ProtocolTxType) (st : LedgerState) :
    apply_protocol_tx env ptx none st =
      ⟨.error (.ProtocolTxError "Protocol tx data must be present"), st⟩ ∧
    (∀ d v, env.deserialize_eth ptx d = .ok (.EthereumEvents v) →
      apply_protocol_tx env ptx (some d) st = ⟨.ok TxResult.default, st⟩) ∧
    (∀ d v, env.deserialize_eth ptx d = .ok (.BridgePool v) →
      apply_protocol_tx env ptx (some d) st = ⟨.ok TxResult.default, st⟩) ∧
    (∀ d v, env.deserialize_eth ptx d = .ok (.ValidatorSetUpdate v) →
      apply_protocol_tx env ptx (some d) st = ⟨.ok TxResult.default, st⟩) := by
  refine ⟨rfl, ?_, ?_, ?_⟩ <;> (intro d v h; simp [apply_protocol_tx, h])

/-- Witness for the C9 theorem at concrete inputs: missing data fails, and
each of the three unimplemented variants is a no-op producing the default
`TxResult`. -/
theorem apply_protocol_tx_data_and_noop_variants_witness :
    apply_protocol_tx env₉ 0 none LedgerState.empty =
      ⟨.error (.ProtocolTxError "Protocol tx data must be present"),
       LedgerState.empty⟩ ∧
    apply_protocol_tx env₉ 0 (some [0]) LedgerState.empty =
      ⟨.ok TxResult.default, LedgerState.empty⟩ ∧
    apply_protocol_tx env₉ 0 (some [1]) LedgerState.empty =
      ⟨.ok TxResult.default, LedgerState.empty⟩ ∧
    apply_protocol_tx env₉ 0 (some [2]) LedgerState.empty =
      ⟨.ok TxResult.default, LedgerState.empty⟩ :=
  ⟨(apply_protocol_tx_data_and_noop_variants env₉ 0 LedgerState.empty).1,
   (apply_protocol_tx_data_and_noop_variants env₉ 0 LedgerState.empty).2.1
     [0] 0 rfl,
   (apply_protocol_tx_data_and_noop_variants env₉ 0 LedgerState.empty).2.2.1
     [1] 0 rfl,
   (apply_protocol_tx_data_and_noop_variants env₉ 0 LedgerState.empty).2.2.2
     [2] 0 rfl⟩

/-! ## Properties of `run_fee_unshielding` -/

/-- Inversion of a successful `copy_consumed_gas_from`: the target meter
keeps its ceiling, takes over the source's consumption, and that
consumption respects the target's ceiling. -/
theorem TxGasMeter.copy_ok (m other m₂ : TxGasMeter)
    (h : m.copy_consumed_gas_from other = .ok m₂) :
    m₂ = { m with transaction_gas := other.transaction_gas } ∧
    other.transaction_gas ≤ m.tx_gas_limit := by
  unfold TxGasMeter.copy_consumed_gas_from at h
  split at h
  next hgt => exact absurd h (by simp)
  next hgt => cases h; exact ⟨rfl, not_lt.mp hgt⟩

/-- Classification of `fee_unshield_runner_error`: a gas error propagates,
everything else reports `false`. -/
theorem fee_unshield_runner_error_cases (e : Error) :
    (∃ s, e = .GasError s ∧ fee_unshield_runner_error e = .error (.GasError s)) ∨
    ((∀ s, e ≠ .GasError s) ∧ fee_unshield_runner_error e = .ok false) := by
  cases e <;> simp [fee_unshield_runner_error]

/-- The seeding step of the private fee-unshielding meter succeeds exactly
when the enclosing meter's consumption fits under the private ceiling. -/
theorem run_fee_unshielding_seed_ok (st : LedgerState) (txm : TxGasMeter)
    (h : txm.transaction_gas ≤ (read_fee_unshielding_gas_limit st).min txm.tx_gas_limit) :
    (TxGasMeter.new ((read_fee_unshielding_gas_limit st).min txm.tx_gas_limit)).copy_consumed_gas_from
        txm =
      .ok { tx_gas_limit := (read_fee_unshielding_gas_limit st).min txm.tx_gas_limit,
            transaction_gas := txm.transaction_gas } := by
  simp [TxGasMeter.new, TxGasMeter.copy_consumed_gas_from, not_lt.mpr h]

/-- Claim C3 (counterexample): contrary to the claim, the private meter's
final consumption is not copied back into the enclosing meter on every
return of `run_fee_unshielding`: when the sub-execution runner fails with
a gas error after consuming 9 gas (private meter at 16), the function
returns that error immediately and the enclosing meter still shows its
original 7 gas. -/
theorem run_fee_unshielding_gas_error_skips_copy_back :
    (apply_wasm_tx envC3x { header_hash := 0, raw_header_hash := 0, sections := [] }
        0 { c5_st with write_log := c5_st.write_log.precommit_tx }
        { tx_gas_limit := 50, transaction_gas := 7 }).txm.transaction_gas = 16 ∧
    run_fee_unshielding envC3x c4_wrapper c5_st txm₅ 0 =
      ⟨.error (.GasError "oog"), c5_st, txm₅⟩ :=
  ⟨rfl, rfl⟩

/-- Claim C3 (amended): the fee-unshielding sub-execution runs under a
private gas meter whose ceiling is the minimum of the
`fee_unshielding_gas_limit` parameter and the transaction's gas limit and
which is seeded with the enclosing meter's consumption (failing with a
gas error when the seed itself exceeds the private ceiling), and whenever
`run_fee_unshielding` returns `Ok`, the private meter's final consumption
has been copied back into the enclosing meter; on the gas-error return
path the copy-back is skipped. -/
theorem run_fee_unshielding_private_meter_spec (env : ProtocolEnv)
    (wrapper : WrapperTx) (st : LedgerState) (txm : TxGasMeter)
    (transaction : Transaction) :
    ((read_fee_unshielding_gas_limit st).min txm.tx_gas_limit < txm.transaction_gas →
      run_fee_unshielding env wrapper st txm transaction =
        ⟨.error (.GasError "Transaction gas limit exceeded"), st, txm⟩) ∧
    (∀ b st₂ txm₂,
      run_fee_unshielding env wrapper st txm transaction = ⟨.ok b, st₂, txm₂⟩ →
      ∃ pm₂ : TxGasMeter,
        txm₂ = { txm with transaction_gas := pm₂.transaction_gas } ∧
        pm₂.transaction_gas ≤ txm.tx_gas_limit ∧
        ((∃ ftx,
            env.generate_fee_unshielding wrapper (get_transfer_hash_from_storage st)
              transaction = .ok ftx ∧
            pm₂ = (apply_wasm_tx env ftx 0
              { st with write_log := st.write_log.precommit_tx }
              { tx_gas_limit := (read_fee_unshielding_gas_limit st).min txm.tx_gas_limit,
                transaction_gas := txm.transaction_gas }).txm) ∨
         ((∃ s, env.generate_fee_unshielding wrapper (get_transfer_hash_from_storage st)
              transaction = .error s) ∧
          pm₂ = { tx_gas_limit := (read_fee_unshielding_gas_limit st).min txm.tx_gas_limit,
                  transaction_gas := txm.transaction_gas }))) := by
  constructor
  · intro hlt
    simp [run_fee_unshielding, TxGasMeter.new, TxGasMeter.copy_consumed_gas_from, hlt]
  · intro b st₂ txm₂ h
    simp only [run_fee_unshielding] at h
    by_cases hseed : txm.transaction_gas ≤
        (read_fee_unshielding_gas_limit st).min txm.tx_gas_limit
    · rw [run_fee_unshielding_seed_ok st txm hseed] at h
      dsimp only at h
      cases hgen : env.generate_fee_unshielding wrapper
          (get_transfer_hash_from_storage st) transaction with
      | error s =>
        rw [hgen] at h
        dsimp only at h
        cases hcb : txm.copy_consumed_gas_from
            { tx_gas_limit := (read_fee_unshielding_gas_limit st).min txm.tx_gas_limit,
              transaction_gas := txm.transaction_gas } with
        | error e => rw [hcb] at h; simp at h
        | ok txm₃ =>
          rw [hcb] at h
          obtain ⟨hcopy, hle⟩ := TxGasMeter.copy_ok _ _ _ hcb
          have h3 : txm₃ = txm₂ := congrArg RunFeeUnshieldOut.txm h
          refine ⟨{ tx_gas_limit := (read_fee_unshielding_gas_limit st).min txm.tx_gas_limit,
                    transaction_gas := txm.transaction_gas }, ?_, hle,
                  Or.inr ⟨⟨s, rfl⟩, rfl⟩⟩
          rw [← h3, hcopy]
      | ok ftx =>
        rw [hgen] at h
        dsimp only at h
        cases hres : (apply_wasm_tx env ftx 0
            { st with write_log := st.write_log.precommit_tx }
            { tx_gas_limit := (read_fee_unshielding_gas_limit st).min txm.tx_gas_limit,
              transaction_gas := txm.transaction_gas }).res with
        | ok result =>
          rw [hres] at h
          dsimp only at h
          by_cases hacc : result.is_accepted = true
          · rw [if_pos hacc] at h
            dsimp only at h
            cases hcb : txm.copy_consumed_gas_from
                (apply_wasm_tx env ftx 0
                  { st with write_log := st.write_log.precommit_tx }
                  { tx_gas_limit := (read_fee_unshielding_gas_limit st).min txm.tx_gas_limit,
                    transaction_gas := txm.transaction_gas }).txm with
            | error e => rw [hcb] at h; simp at h
            | ok txm₃ =>
              rw [hcb] at h
              obtain ⟨hcopy, hle⟩ := TxGasMeter.copy_ok _ _ _ hcb
              have h3 : txm₃ = txm₂ := congrArg RunFeeUnshieldOut.txm h
              refine ⟨_, ?_, hle, Or.inl ⟨ftx, rfl, rfl⟩⟩
              rw [← h3, hcopy]
          · rw [if_neg hacc] at h
            dsimp only at h
            cases hcb : txm.copy_consumed_gas_from
                (apply_wasm_tx env ftx 0
                  { st with write_log := st.write_log.precommit_tx }
                  { tx_gas_limit := (read_fee_unshielding_gas_limit st).min txm.tx_gas_limit,
                    transaction_gas := txm.transaction_gas }).txm with
            | error e => rw [hcb] at h; simp at h
            | ok txm₃ =>
              rw [hcb] at h
              obtain ⟨hcopy, hle⟩ := TxGasMeter.copy_ok _ _ _ hcb
              have h3 : txm₃ = txm₂ := congrArg RunFeeUnshieldOut.txm h
              refine ⟨_, ?_, hle, Or.inl ⟨ftx, rfl, rfl⟩⟩
              rw [← h3, hcopy]
        | error e =>
          rw [hres] at h
          dsimp only at h
          rcases fee_unshield_runner_error_cases e with ⟨s, rfl, hfe⟩ | ⟨hne, hfe⟩ <;>
            rw [hfe] at h <;> dsimp only at h
          · simp at h
          · cases hcb : txm.copy_consumed_gas_from
                (apply_wasm_tx env ftx 0
                  { st with write_log := st.write_log.precommit_tx }
                  { tx_gas_limit := (read_fee_unshielding_gas_limit st).min txm.tx_gas_limit,
                    transaction_gas := txm.transaction_gas }).txm with
            | error e₁ => rw [hcb] at h; simp at h
            | ok txm₃ =>
              rw [hcb] at h
              obtain ⟨hcopy, hle⟩ := TxGasMeter.copy_ok _ _ _ hcb
              have h3 : txm₃ = txm₂ := congrArg RunFeeUnshieldOut.txm h
              refine ⟨_, ?_, hle, Or.inl ⟨ftx, rfl, rfl⟩⟩
              rw [← h3, hcopy]
    · have hcopy : (TxGasMeter.new
          ((read_fee_unshielding_gas_limit st).min txm.tx_gas_limit)).copy_consumed_gas_from
            txm = .error "Transaction gas limit exceeded" := by
        simp [TxGasMeter.new, TxGasMeter.copy_consumed_gas_from, not_le.mp hseed]
      rw [hcopy] at h
      simp at h

/-- Witness for the amended C3 theorem at concrete inputs: with the
parameter at 50 and a 100-gas meter, a meter already at 60 fails the
seeding, while a meter at 7 completes the accepted sub-execution and the
characterization of the private meter holds. -/
theorem run_fee_unshielding_private_meter_spec_witness :
    run_fee_unshielding env₀ c4_wrapper c5_st
      { tx_gas_limit := 100, transaction_gas := 60 } 0 =
      ⟨.error (.GasError "Transaction gas limit exceeded"), c5_st,
       { tx_gas_limit := 100, transaction_gas := 60 }⟩ ∧
    ∃ pm₂ : TxGasMeter,
      txm₅ = { txm₅ with transaction_gas := pm₂.transaction_gas } ∧
      pm₂.transaction_gas ≤ txm₅.tx_gas_limit ∧
      ((∃ ftx,
          env₀.generate_fee_unshielding c4_wrapper (get_transfer_hash_from_storage c5_st)
            0 = .ok ftx ∧
          pm₂ = (apply_wasm_tx env₀ ftx 0
            { c5_st with write_log := c5_st.write_log.precommit_tx }
            { tx_gas_limit := (read_fee_unshielding_gas_limit c5_st).min txm₅.tx_gas_limit,
              transaction_gas := txm₅.transaction_gas }).txm) ∨
       ((∃ s, env₀.generate_fee_unshielding c4_wrapper (get_transfer_hash_from_storage c5_st)
            0 = .error s) ∧
        pm₂ = { tx_gas_limit := (read_fee_unshielding_gas_limit c5_st).min txm₅.tx_gas_limit,
                transaction_gas := txm₅.transaction_gas })) :=
  ⟨(run_fee_unshielding_private_meter_spec env₀ c4_wrapper c5_st
      { tx_gas_limit := 100, transaction_gas := 60 } 0).1 (by decide),
   (run_fee_unshielding_private_meter_spec env₀ c4_wrapper c5_st txm₅ 0).2
      true c5_st txm₅ rfl⟩

/-- Claim C5: in `run_fee_unshielding`, when the sub-execution is rejected
by the VPs or the runner fails with a non-gas error,
`drop_tx_keep_precommit` is applied to the write-log and the function
reports `false` (the fee path then falls back to the transparent
balance); a gas error from the runner is propagated as `Err` (with the
write-log equally dropped and the enclosing meter untouched). The copy
of the private meter's consumption back into the enclosing meter is
assumed to fit its ceiling on the reporting paths, as the sub-execution's
meter enforces the smaller private ceiling. -/
theorem run_fee_unshielding_rejection_spec (env : ProtocolEnv)
    (wrapper : WrapperTx) (st : LedgerState) (txm : TxGasMeter)
    (transaction : Transaction) :
    (∀ ftx result,
      env.generate_fee_unshielding wrapper (get_transfer_hash_from_storage st)
        transaction = .ok ftx →
      txm.transaction_gas ≤ (read_fee_unshielding_gas_limit st).min txm.tx_gas_limit →
      (apply_wasm_tx env ftx 0 { st with write_log := st.write_log.precommit_tx }
        { tx_gas_limit := (read_fee_unshielding_gas_limit st).min txm.tx_gas_limit,
          transaction_gas := txm.transaction_gas }).res = .ok result →
      result.is_accepted = false →
      (apply_wasm_tx env ftx 0 { st with write_log := st.write_log.precommit_tx }
        { tx_gas_limit := (read_fee_unshielding_gas_limit st).min txm.tx_gas_limit,
          transaction_gas := txm.transaction_gas }).txm.transaction_gas ≤ txm.tx_gas_limit →
      run_fee_unshielding env wrapper st txm transaction =
        ⟨.ok false,
         { (apply_wasm_tx env ftx 0 { st with write_log := st.write_log.precommit_tx }
             { tx_gas_limit := (read_fee_unshielding_gas_limit st).min txm.tx_gas_limit,
               transaction_gas := txm.transaction_gas }).st with
           write_log := (apply_wasm_tx env ftx 0
             { st with write_log := st.write_log.precommit_tx }
             { tx_gas_limit := (read_fee_unshielding_gas_limit st).min txm.tx_gas_limit,
               transaction_gas := txm.transaction_gas }).st.write_log.drop_tx_keep_precommit },
         { txm with transaction_gas := (apply_wasm_tx env ftx 0
             { st with write_log := st.write_log.precommit_tx }
             { tx_gas_limit := (read_fee_unshielding_gas_limit st).min txm.tx_gas_limit,
               transaction_gas := txm.transaction_gas }).txm.transaction_gas }⟩) ∧
    (∀ ftx e,
      env.generate_fee_unshielding wrapper (get_transfer_hash_from_storage st)
        transaction = .ok ftx →
      txm.transaction_gas ≤ (read_fee_unshielding_gas_limit st).min txm.tx_gas_limit →
      (apply_wasm_tx env ftx 0 { st with write_log := st.write_log.precommit_tx }
        { tx_gas_limit := (read_fee_unshielding_gas_limit st).min txm.tx_gas_limit,
          transaction_gas := txm.transaction_gas }).res = .error e →
      (∀ s, e ≠ .GasError s) →
      (apply_wasm_tx env ftx 0 { st with write_log := st.write_log.precommit_tx }
        { tx_gas_limit := (read_fee_unshielding_gas_limit st).min txm.tx_gas_limit,
          transaction_gas := txm.transaction_gas }).txm.transaction_gas ≤ txm.tx_gas_limit →
      run_fee_unshielding env wrapper st txm transaction =
        ⟨.ok false,
         { (apply_wasm_tx env ftx 0 { st with write_log := st.write_log.precommit_tx }
             { tx_gas_limit := (read_fee_unshielding_gas_limit st).min txm.tx_gas_limit,
               transaction_gas := txm.transaction_gas }).st with
           write_log := (apply_wasm_tx env ftx 0
             { st with write_log := st.write_log.precommit_tx }
             { tx_gas_limit := (read_fee_unshielding_gas_limit st).min txm.tx_gas_limit,
               transaction_gas := txm.transaction_gas }).st.write_log.drop_tx_keep_precommit },
         { txm with transaction_gas := (apply_wasm_tx env ftx 0
             { st with write_log := st.write_log.precommit_tx }
             { tx_gas_limit := (read_fee_unshielding_gas_limit st).min txm.tx_gas_limit,
               transaction_gas := txm.transaction_gas }).txm.transaction_gas }⟩) ∧
    (∀ ftx s,
      env.generate_fee_unshielding wrapper (get_transfer_hash_from_storage st)
        transaction = .ok ftx →
      txm.transaction_gas ≤ (read_fee_unshielding_gas_limit st).min txm.tx_gas_limit →
      (apply_wasm_tx env ftx 0 { st with write_log := st.write_log.precommit_tx }
        { tx_gas_limit := (read_fee_unshielding_gas_limit st).min txm.tx_gas_limit,
          transaction_gas := txm.transaction_gas }).res = .error (.GasError s) →
      run_fee_unshielding env wrapper st txm transaction =
        ⟨.error (.GasError s),
         { (apply_wasm_tx env ftx 0 { st with write_log := st.write_log.precommit_tx }
             { tx_gas_limit := (read_fee_unshielding_gas_limit st).min txm.tx_gas_limit,
               transaction_gas := txm.transaction_gas }).st with
           write_log := (apply_wasm_tx env ftx 0
             { st with write_log := st.write_log.precommit_tx }
             { tx_gas_limit := (read_fee_unshielding_gas_limit st).min txm.tx_gas_limit,
               transaction_gas := txm.transaction_gas }).st.write_log.drop_tx_keep_precommit },
         txm⟩) := by
  refine ⟨?_, ?_, ?_⟩
  · intro ftx result hgen hseed hres hacc hle
    simp only [run_fee_unshielding]
    rw [run_fee_unshielding_seed_ok st txm hseed]
    dsimp only
    rw [hgen]
    dsimp only
    rw [hres]
    dsimp only
    rw [if_neg (by simp [hacc])]
    dsimp only
    rw [show txm.copy_consumed_gas_from
        (apply_wasm_tx env ftx 0 { st with write_log := st.write_log.precommit_tx }
          { tx_gas_limit := (read_fee_unshielding_gas_limit st).min txm.tx_gas_limit,
            transaction_gas := txm.transaction_gas }).txm =
        .ok { txm with transaction_gas := (apply_wasm_tx env ftx 0
          { st with write_log := st.write_log.precommit_tx }
          { tx_gas_limit := (read_fee_unshielding_gas_limit st).min txm.tx_gas_limit,
            transaction_gas := txm.transaction_gas }).txm.transaction_gas }
      from by simp [TxGasMeter.copy_consumed_gas_from, not_lt.mpr hle]]
  · intro ftx e hgen hseed hres hne hle
    have hfe : fee_unshield_runner_error e = .ok false := by
      rcases fee_unshield_runner_error_cases e with ⟨s, rfl, _⟩ | ⟨_, hfe⟩
      · exact absurd rfl (hne s)
      · exact hfe
    simp only [run_fee_unshielding]
    rw [run_fee_unshielding_seed_ok st txm hseed]
    dsimp only
    rw [hgen]
    dsimp only
    rw [hres]
    dsimp only
    rw [hfe]
    dsimp only
    rw [show txm.copy_consumed_gas_from
        (apply_wasm_tx env ftx 0 { st with write_log := st.write_log.precommit_tx }
          { tx_gas_limit := (read_fee_unshielding_gas_limit st).min txm.tx_gas_limit,
            transaction_gas := txm.transaction_gas }).txm =
        .ok { txm with transaction_gas := (apply_wasm_tx env ftx 0
          { st with write_log := st.write_log.precommit_tx }
          { tx_gas_limit := (read_fee_unshielding_gas_limit st).min txm.tx_gas_limit,
            transaction_gas := txm.transaction_gas }).txm.transaction_gas }
      from by simp [TxGasMeter.copy_consumed_gas_from, not_lt.mpr hle]]
  · intro ftx s hgen hseed hres
    simp only [run_fee_unshielding]
    rw [run_fee_unshielding_seed_ok st txm hseed]
    dsimp only
    rw [hgen]
    dsimp only
    rw [hres]
    dsimp only [fee_unshield_runner_error]

/-- Witness for the C5 theorem at concrete inputs: a sub-execution
rejected by the `PosSlashPool` sentinel reports `false` with the tx
buffer dropped; a runner crash reports `false`; a runner gas error is
propagated as `Err` with the enclosing meter untouched. -/
theorem run_fee_unshielding_rejection_spec_witness :
    run_fee_unshielding envC5a c4_wrapper c5_st txm₅ 0 =
      ⟨.ok false,
       { (apply_wasm_tx envC5a { header_hash := 0, raw_header_hash := 0, sections := [] }
           0 { c5_st with write_log := c5_st.write_log.precommit_tx }
           { tx_gas_limit := (read_fee_unshielding_gas_limit c5_st).min txm₅.tx_gas_limit,
             transaction_gas := txm₅.transaction_gas }).st with
         write_log := (apply_wasm_tx envC5a
           { header_hash := 0, raw_header_hash := 0, sections := [] }
           0 { c5_st with write_log := c5_st.write_log.precommit_tx }
           { tx_gas_limit := (read_fee_unshielding_gas_limit c5_st).min txm₅.tx_gas_limit,
             transaction_gas := txm₅.transaction_gas }).st.write_log.drop_tx_keep_precommit },
       { txm₅ with transaction_gas := (apply_wasm_tx envC5a
           { header_hash := 0, raw_header_hash := 0, sections := [] }
           0 { c5_st with write_log := c5_st.write_log.precommit_tx }
           { tx_gas_limit := (read_fee_unshielding_gas_limit c5_st).min txm₅.tx_gas_limit,
             transaction_gas := txm₅.transaction_gas }).txm.transaction_gas }⟩ ∧
    run_fee_unshielding envC5b c4_wrapper c5_st txm₅ 0 =
      ⟨.ok false,
       { (apply_wasm_tx envC5b { header_hash := 0, raw_header_hash := 0, sections := [] }
           0 { c5_st with write_log := c5_st.write_log.precommit_tx }
           { tx_gas_limit := (read_fee_unshielding_gas_limit c5_st).min txm₅.tx_gas_limit,
             transaction_gas := txm₅.transaction_gas }).st with
         write_log := (apply_wasm_tx envC5b
           { header_hash := 0, raw_header_hash := 0, sections := [] }
           0 { c5_st with write_log := c5_st.write_log.precommit_tx }
           { tx_gas_limit := (read_fee_unshielding_gas_limit c5_st).min txm₅.tx_gas_limit,
             transaction_gas := txm₅.transaction_gas }).st.write_log.drop_tx_keep_precommit },
       { txm₅ with transaction_gas := (apply_wasm_tx envC5b
           { header_hash := 0, raw_header_hash := 0, sections := [] }
           0 { c5_st with write_log := c5_st.write_log.precommit_tx }
           { tx_gas_limit := (read_fee_unshielding_gas_limit c5_st).min txm₅.tx_gas_limit,
             transaction_gas := txm₅.transaction_gas }).txm.transaction_gas }⟩ ∧
    run_fee_unshielding envC3x c4_wrapper c5_st txm₅ 0 =
      ⟨.error (.GasError "oog"),
       { (apply_wasm_tx envC3x { header_hash := 0, raw_header_hash := 0, sections := [] }
           0 { c5_st with write_log := c5_st.write_log.precommit_tx }
           { tx_gas_limit := (read_fee_unshielding_gas_limit c5_st).min txm₅.tx_gas_limit,
             transaction_gas := txm₅.transaction_gas }).st with
         write_log := (apply_wasm_tx envC3x
           { header_hash := 0, raw_header_hash := 0, sections := [] }
           0 { c5_st with write_log := c5_st.write_log.precommit_tx }
           { tx_gas_limit := (read_fee_unshielding_gas_limit c5_st).min txm₅.tx_gas_limit,
             transaction_gas := txm₅.transaction_gas }).st.write_log.drop_tx_keep_precommit },
       txm₅⟩ :=
  ⟨(run_fee_unshielding_rejection_spec envC5a c4_wrapper c5_st txm₅ 0).1
      { header_hash := 0, raw_header_hash := 0, sections := [] } c5a_res
      rfl (by decide) rfl rfl (by decide),
   (run_fee_unshielding_rejection_spec envC5b c4_wrapper c5_st txm₅ 0).2.1
      { header_hash := 0, raw_header_hash := 0, sections := [] }
      (.TxRunnerError "crash") rfl (by decide) rfl (by intro s hcontra; cases hcontra)
      (by decide),
   (run_fee_unshielding_rejection_spec envC3x c4_wrapper c5_st txm₅ 0).2.2
      { header_hash := 0, raw_header_hash := 0, sections := [] } "oog"
      rfl (by decide) rfl⟩

/-! ## Properties of `charge_fee` and `apply_wrapper_tx` -/

/-- A successful `token_transfer` changes nothing but the tx buffer. -/
theorem token_transfer_preserves (st : LedgerState) (token src dest : Address)
    (amount : Nat) (st₁ : LedgerState)
    (h : token_transfer st token src dest amount = .ok st₁) :
    st₁.storage = st.storage ∧
    st₁.write_log.block_buffer = st.write_log.block_buffer ∧
    st₁.write_log.precommit_buffer = st.write_log.precommit_buffer ∧
    st₁.write_log.replay_protection = st.write_log.replay_protection := by
  simp only [token_transfer] at h
  cases hcs : checked_sub (read_balance st token src) amount with
  | none => rw [hcs] at h; exact absurd h (by simp)
  | some ns =>
    rw [hcs] at h
    dsimp only at h
    by_cases hsd : src = dest
    · rw [if_pos hsd] at h
      cases h
      exact ⟨rfl, rfl, rfl, rfl⟩
    · rw [if_neg hsd] at h
      cases hca : checked_add (read_balance st token dest) amount with
      | none => rw [hca] at h; exact absurd h (by simp)
      | some nd =>
        rw [hca] at h
        dsimp only at h
        cases h
        exact ⟨rfl, rfl, rfl, rfl⟩

/-- `transfer_fee` changes nothing but the tx buffer, on every path
(including the balance-draining failure path). -/
theorem transfer_fee_preserves (env : ProtocolEnv) (st : LedgerState)
    (proposer : Address) (w : WrapperTx) (r : Except Error Unit)
    (st₂ : LedgerState) (hTF : transfer_fee env st proposer w = (r, st₂)) :
    st₂.storage = st.storage ∧
    st₂.write_log.block_buffer = st.write_log.block_buffer ∧
    st₂.write_log.precommit_buffer = st.write_log.precommit_buffer ∧
    st₂.write_log.replay_protection = st.write_log.replay_protection := by
  simp only [transfer_fee] at hTF
  cases hfee : w.get_tx_fee with
  | error e =>
    rw [hfee] at hTF
    dsimp only at hTF
    have hs := congrArg Prod.snd hTF
    dsimp only at hs
    rw [← hs]
    exact ⟨rfl, rfl, rfl, rfl⟩
  | ok fd =>
    rw [hfee] at hTF
    dsimp only at hTF
    cases hd : env.denom_to_amount fd w.fee.token st with
    | error e =>
      rw [hd] at hTF
      dsimp only at hTF
      have hs := congrArg Prod.snd hTF
      dsimp only at hs
      rw [← hs]
      exact ⟨rfl, rfl, rfl, rfl⟩
    | ok fees =>
      rw [hd] at hTF
      dsimp only at hTF
      by_cases hsome : (checked_sub (read_balance st w.fee.token w.fee_payer) fees).isSome
      · rw [if_pos hsome] at hTF
        cases htt : token_transfer st w.fee.token w.fee_payer proposer fees with
        | ok st₁ =>
          rw [htt] at hTF
          dsimp only at hTF
          have hs := congrArg Prod.snd hTF
          dsimp only at hs
          rw [← hs]
          exact token_transfer_preserves st _ _ _ _ st₁ htt
        | error e =>
          rw [htt] at hTF
          dsimp only at hTF
          have hs := congrArg Prod.snd hTF
          dsimp only at hs
          rw [← hs]
          exact ⟨rfl, rfl, rfl, rfl⟩
      · rw [if_neg hsome] at hTF
        cases htt : token_transfer st w.fee.token w.fee_payer proposer
            (read_balance st w.fee.token w.fee_payer) with
        | ok st₁ =>
          rw [htt] at hTF
          dsimp only at hTF
          have hs := congrArg Prod.snd hTF
          dsimp only at hs
          rw [← hs]
          exact token_transfer_preserves st _ _ _ _ st₁ htt
        | error e =>
          rw [htt] at hTF
          dsimp only at hTF
          have hs := congrArg Prod.snd hTF
          dsimp only at hs
          rw [← hs]
          exact ⟨rfl, rfl, rfl, rfl⟩

/-- When the payload runner preserves replay-protection entries, so does
the whole of `apply_wasm_tx` (VPs never write; the IBC-event take and the
result assembly leave the replay index alone). -/
theorem apply_wasm_tx_replay_mono (env : ProtocolEnv)
    (Hpres : ∀ t i s m, ∀ hh, hh ∈ s.write_log.replay_protection →
      hh ∈ (env.run_tx t i s m).st.write_log.replay_protection)
    (tx : Tx) (i : Nat) (st : LedgerState) (txm : TxGasMeter) (hh : Hash)
    (hmem : hh ∈ st.write_log.replay_protection) :
    hh ∈ (apply_wasm_tx env tx i st txm).st.write_log.replay_protection := by
  simp only [apply_wasm_tx, WriteLog.take_ibc_events]
  by_cases hrp : st.write_log.has_replay_protection_entry tx.raw_header_hash = true
  · rw [if_pos hrp]
    exact hmem
  · rw [if_neg hrp]
    cases hrun : (env.run_tx tx i st txm).res with
    | error e =>
      dsimp only
      exact Hpres tx i st txm hh hmem
    | ok verifiers =>
      dsimp only
      cases hcv : check_vps env (env.run_tx tx i st txm).st
          (env.run_tx tx i st txm).txm verifiers with
      | error e =>
        dsimp only
        exact Hpres tx i st txm hh hmem
      | ok p =>
        obtain ⟨vps, txm₂⟩ := p
        dsimp only
        exact Hpres tx i st txm hh hmem

/-- When the payload runner preserves replay-protection entries, so does
`run_fee_unshielding` (precommit and drop leave the replay index alone). -/
theorem run_fee_unshielding_replay_mono (env : ProtocolEnv)
    (Hpres : ∀ t i s m, ∀ hh, hh ∈ s.write_log.replay_protection →
      hh ∈ (env.run_tx t i s m).st.write_log.replay_protection)
    (wrapper : WrapperTx) (st : LedgerState) (txm : TxGasMeter)
    (transaction : Transaction) (hh : Hash)
    (hmem : hh ∈ st.write_log.replay_protection) :
    hh ∈ (run_fee_unshielding env wrapper st txm transaction).st.write_log.replay_protection := by
  simp only [run_fee_unshielding]
  cases hseed : (TxGasMeter.new
      ((read_fee_unshielding_gas_limit st).min txm.tx_gas_limit)).copy_consumed_gas_from
        txm with
  | error e => exact hmem
  | ok seeded =>
    dsimp only
    cases hgen : env.generate_fee_unshielding wrapper
        (get_transfer_hash_from_storage st) transaction with
    | error s =>
      dsimp only
      cases hcb : txm.copy_consumed_gas_from seeded with
      | error e => exact hmem
      | ok txm₂ => exact hmem
    | ok ftx =>
      dsimp only
      have hsub : hh ∈ (apply_wasm_tx env ftx 0
          { st with write_log := st.write_log.precommit_tx }
          seeded).st.write_log.replay_protection :=
        apply_wasm_tx_replay_mono env Hpres ftx 0
          { st with write_log := st.write_log.precommit_tx } seeded hh hmem
      cases hres : (apply_wasm_tx env ftx 0
          { st with write_log := st.write_log.precommit_tx } seeded).res with
      | ok result =>
        dsimp only
        by_cases hacc : result.is_accepted = true
        · rw [if_pos hacc]
          dsimp only
          cases hcb : txm.copy_consumed_gas_from (apply_wasm_tx env ftx 0
              { st with write_log := st.write_log.precommit_tx } seeded).txm with
          | error e => exact hsub
          | ok txm₂ => exact hsub
        · rw [if_neg hacc]
          dsimp only
          cases hcb : txm.copy_consumed_gas_from (apply_wasm_tx env ftx 0
              { st with write_log := st.write_log.precommit_tx } seeded).txm with
          | error e => exact hsub
          | ok txm₂ => exact hsub
      | error e =>
        dsimp only
        rcases fee_unshield_runner_error_cases e with ⟨s, rfl, hfe⟩ | ⟨hne, hfe⟩ <;>
          rw [hfe] <;> dsimp only
        · exact hsub
        · cases hcb : txm.copy_consumed_gas_from (apply_wasm_tx env ftx 0
              { st with write_log := st.write_log.precommit_tx } seeded).txm with
          | error e₁ => exact hsub
          | ok txm₂ => exact hsub

/-- Every error of `run_fee_unshielding` is a gas error: the seeding, the
runner's propagated failure, and the final copy-back all fail only with
`GasError`. -/
theorem run_fee_unshielding_error_gas (env : ProtocolEnv)
    (wrapper : WrapperTx) (st : LedgerState) (txm : TxGasMeter)
    (transaction : Transaction) (e : Error)
    (h : (run_fee_unshielding env wrapper st txm transaction).res = .error e) :
    ∃ s, e = .GasError s := by
  simp only [run_fee_unshielding] at h
  cases hseed : (TxGasMeter.new
      ((read_fee_unshielding_gas_limit st).min txm.tx_gas_limit)).copy_consumed_gas_from
        txm with
  | error e₁ =>
    rw [hseed] at h
    dsimp only at h
    exact ⟨e₁, (Except.error.inj h).symm⟩
  | ok seeded =>
    rw [hseed] at h
    dsimp only at h
    cases hgen : env.generate_fee_unshielding wrapper
        (get_transfer_hash_from_storage st) transaction with
    | error s =>
      rw [hgen] at h
      dsimp only at h
      cases hcb : txm.copy_consumed_gas_from seeded with
      | error e₁ =>
        rw [hcb] at h
        dsimp only at h
        exact ⟨e₁, (Except.error.inj h).symm⟩
      | ok txm₂ =>
        rw [hcb] at h
        exact absurd h (by simp)
    | ok ftx =>
      rw [hgen] at h
      dsimp only at h
      cases hres : (apply_wasm_tx env ftx 0
          { st with write_log := st.write_log.precommit_tx } seeded).res with
      | ok result =>
        rw [hres] at h
        dsimp only at h
        by_cases hacc : result.is_accepted = true <;>
          [rw [if_pos hacc] at h; rw [if_neg hacc] at h] <;>
          dsimp only at h <;>
          { cases hcb : txm.copy_consumed_gas_from (apply_wasm_tx env ftx 0
                { st with write_log := st.write_log.precommit_tx } seeded).txm with
            | error e₁ =>
              rw [hcb] at h
              dsimp only at h
              exact ⟨e₁, (Except.error.inj h).symm⟩
            | ok txm₂ =>
              rw [hcb] at h
              exact absurd h (by simp) }
      | error e₁ =>
        rw [hres] at h
        dsimp only at h
        rcases fee_unshield_runner_error_cases e₁ with ⟨s, rfl, hfe⟩ | ⟨hne, hfe⟩ <;>
          rw [hfe] at h <;> dsimp only at h
        · exact ⟨s, (Except.error.inj h).symm⟩
        · cases hcb : txm.copy_consumed_gas_from (apply_wasm_tx env ftx 0
              { st with write_log := st.write_log.precommit_tx } seeded).txm with
          | error e₂ =>
            rw [hcb] at h
            dsimp only at h
            exact ⟨e₂, (Except.error.inj h).symm⟩
          | ok txm₂ =>
            rw [hcb] at h
            exact absurd h (by simp)

/-- Every error of `check_fees` is a `Fee` error. -/
theorem check_fees_error_fee (env : ProtocolEnv) (st : LedgerState)
    (w : WrapperTx) (e : Error) (h : check_fees env st w = .error e) :
    ∃ s, e = .FeeError s := by
  simp only [check_fees] at h
  cases hfee : w.get_tx_fee with
  | error e₁ =>
    rw [hfee] at h
    dsimp only at h
    exact ⟨e₁, (Except.error.inj h).symm⟩
  | ok fd =>
    rw [hfee] at h
    dsimp only at h
    cases hd : env.denom_to_amount fd w.fee.token st with
    | error e₁ =>
      rw [hd] at h
      dsimp only at h
      exact ⟨e₁, (Except.error.inj h).symm⟩
    | ok fees =>
      rw [hd] at h
      dsimp only at h
      by_cases hsome : (checked_sub (read_balance st w.fee.token w.fee_payer) fees).isSome
      · rw [if_pos hsome] at h
        exact absurd h (by simp)
      · rw [if_neg hsome] at h
        exact ⟨_, (Except.error.inj h).symm⟩

/-- Every error of `transfer_fee` is a `Fee` error. -/
theorem transfer_fee_error_fee (env : ProtocolEnv) (st : LedgerState)
    (proposer : Address) (w : WrapperTx) (e : Error) (st₂ : LedgerState)
    (hTF : transfer_fee env st proposer w = (.error e, st₂)) :
    ∃ s, e = .FeeError s := by
  simp only [transfer_fee] at hTF
  cases hfee : w.get_tx_fee with
  | error e₁ =>
    rw [hfee] at hTF
    dsimp only at hTF
    have h₁ := congrArg Prod.fst hTF
    dsimp only at h₁
    exact ⟨e₁, (Except.error.inj h₁).symm⟩
  | ok fd =>
    rw [hfee] at hTF
    dsimp only at hTF
    cases hd : env.denom_to_amount fd w.fee.token st with
    | error e₁ =>
      rw [hd] at hTF
      dsimp only at hTF
      have h₁ := congrArg Prod.fst hTF
      dsimp only at h₁
      exact ⟨e₁, (Except.error.inj h₁).symm⟩
    | ok fees =>
      rw [hd] at hTF
      dsimp only at hTF
      by_cases hsome : (checked_sub (read_balance st w.fee.token w.fee_payer) fees).isSome
      · rw [if_pos hsome] at hTF
        cases htt : token_transfer st w.fee.token w.fee_payer proposer fees with
        | ok st₁ =>
          rw [htt] at hTF
          dsimp only at hTF
          have h₁ := congrArg Prod.fst hTF
          dsimp only at h₁
          exact absurd h₁ (by simp)
        | error e₁ =>
          rw [htt] at hTF
          dsimp only at hTF
          have h₁ := congrArg Prod.fst hTF
          dsimp only at h₁
          exact ⟨e₁.toMessage, (Except.error.inj h₁).symm⟩
      · rw [if_neg hsome] at hTF
        cases htt : token_transfer st w.fee.token w.fee_payer proposer
            (read_balance st w.fee.token w.fee_payer) with
        | ok st₁ =>
          rw [htt] at hTF
          dsimp only at hTF
          have h₁ := congrArg Prod.fst hTF
          dsimp only at h₁
          exact ⟨_, (Except.error.inj h₁).symm⟩
        | error e₁ =>
          rw [htt] at hTF
          dsimp only at hTF
          have h₁ := congrArg Prod.fst hTF
          dsimp only at h₁
          exact ⟨e₁.toMessage, (Except.error.inj h₁).symm⟩

/-- The commit discipline of `charge_fee` under a replay-preserving
payload runner: replay entries survive every path; a successful run and a
gas-error run have committed the tx write-log (empty tx and precommit
buffers); and with no fee unshielding, a `Fee` error leaves the block
buffer untouched (the commit never happened). -/
theorem charge_fee_spec (env : ProtocolEnv) (wrapper : WrapperTx)
    (masp : Option Transaction) (st : LedgerState) (txm : TxGasMeter)
    (ck : List Key) (wa : Option WrapperArgs)
    (Hpres : ∀ t i s m, ∀ hh, hh ∈ s.write_log.replay_protection →
      hh ∈ (env.run_tx t i s m).st.write_log.replay_protection) :
    (∀ hh, hh ∈ st.write_log.replay_protection →
      hh ∈ (charge_fee env wrapper masp st txm ck wa).st.write_log.replay_protection) ∧
    (∀ u, (charge_fee env wrapper masp st txm ck wa).res = .ok u →
      (charge_fee env wrapper masp st txm ck wa).st.write_log.tx_buffer = [] ∧
      (charge_fee env wrapper masp st txm ck wa).st.write_log.precommit_buffer = []) ∧
    (∀ s, (charge_fee env wrapper masp st txm ck wa).res = .error (.GasError s) →
      (charge_fee env wrapper masp st txm ck wa).st.write_log.tx_buffer = [] ∧
      (charge_fee env wrapper masp st txm ck wa).st.write_log.precommit_buffer = []) ∧
    (masp = none →
      ∀ s, (charge_fee env wrapper masp st txm ck wa).res = .error (.FeeError s) →
      (charge_fee env wrapper masp st txm ck wa).st.write_log.block_buffer =
        st.write_log.block_buffer) := by
  simp only [charge_fee]
  cases masp with
  | none =>
    dsimp only
    cases wa with
    | none =>
      dsimp only
      cases hcf : check_fees env st wrapper with
      | error e =>
        dsimp only
        refine ⟨fun hh hm => hm, ?_, ?_, ?_⟩
        · intro u hu; exact absurd hu (by simp)
        · intro s hs
          obtain ⟨s₁, rfl⟩ := check_fees_error_fee env st wrapper e hcf
          exact absurd (Except.error.inj hs) (by simp)
        · intro _ s hs; rfl
      | ok u =>
        cases u
        dsimp only
        refine ⟨fun hh hm => hm, fun u _ => ⟨rfl, rfl⟩, ?_, ?_⟩
        · intro s hs; exact absurd hs (by simp)
        · intro _ s hs; exact absurd hs (by simp)
    | some args =>
      dsimp only
      cases hFS : transfer_fee env st args.block_proposer wrapper with
      | mk r st₂ =>
        obtain ⟨hsto, hblk, hpre, hrp⟩ :=
          transfer_fee_preserves env st args.block_proposer wrapper r st₂ hFS
        cases r with
        | error e =>
          dsimp only
          refine ⟨?_, ?_, ?_, ?_⟩
          · intro hh hm; rw [hrp]; exact hm
          · intro u hu; exact absurd hu (by simp)
          · intro s hs
            obtain ⟨s₁, rfl⟩ :=
              transfer_fee_error_fee env st args.block_proposer wrapper e st₂ hFS
            exact absurd (Except.error.inj hs) (by simp)
          · intro _ s hs; exact hblk
        | ok u =>
          cases u
          dsimp only
          refine ⟨?_, fun u _ => ⟨rfl, rfl⟩, ?_, ?_⟩
          · intro hh hm
            show hh ∈ st₂.write_log.replay_protection
            rw [hrp]; exact hm
          · intro s hs; exact absurd hs (by simp)
          · intro _ s hs; exact absurd hs (by simp)
  | some t =>
    dsimp only
    have hrun := run_fee_unshielding_replay_mono env Hpres wrapper st txm t
    cases wa with
    | none =>
      dsimp only
      cases hcf : check_fees env (run_fee_unshielding env wrapper st txm t).st wrapper with
      | error e =>
        dsimp only
        refine ⟨fun hh hm => hrun hh hm, ?_, ?_, ?_⟩
        · intro u hu; exact absurd hu (by simp)
        · intro s hs
          obtain ⟨s₁, rfl⟩ := check_fees_error_fee env _ wrapper e hcf
          exact absurd (Except.error.inj hs) (by simp)
        · intro hmasp; exact absurd hmasp (by simp)
      | ok u =>
        cases u
        dsimp only
        refine ⟨fun hh hm => hrun hh hm, fun u _ => ⟨rfl, rfl⟩, ?_, ?_⟩
        · intro s hs; exact absurd hs (by simp)
        · intro hmasp; exact absurd hmasp (by simp)
    | some args =>
      dsimp only
      cases hFS : transfer_fee env (run_fee_unshielding env wrapper st txm t).st
          args.block_proposer wrapper with
      | mk r st₂ =>
        obtain ⟨hsto, hblk, hpre, hrp⟩ :=
          transfer_fee_preserves env _ args.block_proposer wrapper r st₂ hFS
        cases r with
        | error e =>
          dsimp only
          refine ⟨?_, ?_, ?_, ?_⟩
          · intro hh hm; rw [hrp]; exact hrun hh hm
          · intro u hu; exact absurd hu (by simp)
          · intro s hs
            obtain ⟨s₁, rfl⟩ :=
              transfer_fee_error_fee env _ args.block_proposer wrapper e st₂ hFS
            exact absurd (Except.error.inj hs) (by simp)
          · intro hmasp; exact absurd hmasp (by simp)
        | ok u =>
          cases u
          dsimp only
          cases hv : (run_fee_unshielding env wrapper st txm t).res with
          | error e₁ =>
            dsimp only
            refine ⟨?_, ?_, ?_, ?_⟩
            · intro hh hm
              show hh ∈ st₂.write_log.replay_protection
              rw [hrp]; exact hrun hh hm
            · intro u hu; exact absurd hu (by simp)
            · intro s hs; exact ⟨rfl, rfl⟩
            · intro hmasp; exact absurd hmasp (by simp)
          | ok b =>
            dsimp only
            refine ⟨?_, fun u _ => ⟨rfl, rfl⟩, ?_, ?_⟩
            · intro hh hm
              show hh ∈ st₂.write_log.replay_protection
              rw [hrp]; exact hrun hh hm
            · intro s hs; exact absurd hs (by simp)
            · intro hmasp; exact absurd hmasp (by simp)

/-- Claim C2 (counterexample): contrary to the claim, the wrapper's tx
write-log buffer is not committed when the fee step itself fails. With a
payer balance of 5 against a 20-token fee, `transfer_fee` drains the
balance into the tx buffer and fails, `charge_fee` propagates the `Fee`
error before reaching `commit_tx`, and `apply_wrapper_tx` returns with the
drained-balance writes still sitting in the tx buffer and an empty block
buffer — the fee transfer was not promoted. -/
theorem apply_wrapper_tx_fee_error_uncommitted :
    apply_wrapper_tx env₀ tx₂ c4_wrapper_20 none 3 c2_st
      { tx_gas_limit := 100, transaction_gas := 0 }
      (some { block_proposer := Address.Established 2,
              is_committed_fee_unshield := true }) =
      ⟨.error (.FeeError
         "Transparent balance of wrapper's signer was insufficient to pay fee. All the available transparent funds have been moved to the block proposer"),
       { storage := [(Key.balance (Address.Established 0) (Address.Established 1), 5)],
         write_log :=
           { tx_buffer :=
               [(Key.balance (Address.Established 0) (Address.Established 2), 5),
                (Key.balance (Address.Established 0) (Address.Established 1), 0)],
             precommit_buffer := [],
             block_buffer := [],
             replay_protection := [11],
             ibc_events := [],
             initialized_accounts := [] } },
       { tx_gas_limit := 100, transaction_gas := 0 },
       some { block_proposer := Address.Established 2,
              is_committed_fee_unshield := true }⟩ := by
  rfl

/-- Claim C2 (amended): `apply_wrapper_tx` writes the wrapper's header
hash into the replay-protection index before any fallible step, so the
entry is present in the final state on every path (given a payload runner
that preserves replay entries); the wrapper's tx write-log buffer is
committed whenever the fee step succeeds — in particular whenever
`apply_wrapper_tx` returns `Ok` or a (fee-unshielding or wrapper-gas) gas
error — but when the fee step itself fails with a `Fee` error the commit
is not reached and (without fee unshielding) the block buffer is
unchanged. -/
theorem apply_wrapper_tx_replay_commit_spec (env : ProtocolEnv) (tx : Tx)
    (wrapper : WrapperTx) (fut : Option Transaction) (len : Nat)
    (st : LedgerState) (txm : TxGasMeter) (wa : Option WrapperArgs)
    (Hpres : ∀ t i s m, ∀ hh, hh ∈ s.write_log.replay_protection →
      hh ∈ (env.run_tx t i s m).st.write_log.replay_protection) :
    tx.header_hash ∈
      (apply_wrapper_tx env tx wrapper fut len st txm wa).st.write_log.replay_protection ∧
    (∀ ck, (apply_wrapper_tx env tx wrapper fut len st txm wa).res = .ok ck →
      (apply_wrapper_tx env tx wrapper fut len st txm wa).st.write_log.tx_buffer = [] ∧
      (apply_wrapper_tx env tx wrapper fut len st txm wa).st.write_log.precommit_buffer = []) ∧
    (∀ s, (apply_wrapper_tx env tx wrapper fut len st txm wa).res = .error (.GasError s) →
      (apply_wrapper_tx env tx wrapper fut len st txm wa).st.write_log.tx_buffer = [] ∧
      (apply_wrapper_tx env tx wrapper fut len st txm wa).st.write_log.precommit_buffer = []) ∧
    (fut = none →
      ∀ s, (apply_wrapper_tx env tx wrapper fut len st txm wa).res = .error (.FeeError s) →
      (apply_wrapper_tx env tx wrapper fut len st txm wa).st.write_log.block_buffer =
        st.write_log.block_buffer) := by
  have hcf := charge_fee_spec env wrapper fut
    { st with write_log := st.write_log.write_tx_hash tx.header_hash } txm [] wa Hpres
  have hmem0 : tx.header_hash ∈
      ({ st with write_log := st.write_log.write_tx_hash tx.header_hash } :
        LedgerState).write_log.replay_protection :=
    List.mem_cons_self _ _
  simp only [apply_wrapper_tx]
  cases hres : (charge_fee env wrapper fut
      { st with write_log := st.write_log.write_tx_hash tx.header_hash }
      txm [] wa).res with
  | error e =>
    dsimp only
    refine ⟨hcf.1 tx.header_hash hmem0, ?_, ?_, ?_⟩
    · intro ck hck; exact absurd hck (by simp)
    · intro s hs
      have he : e = .GasError s := Except.error.inj hs
      subst he
      exact hcf.2.2.1 s hres
    · intro hfut s hs
      have he : e = .FeeError s := Except.error.inj hs
      subst he
      exact hcf.2.2.2 hfut s hres
  | ok u =>
    cases u
    dsimp only
    cases hg : (charge_fee env wrapper fut
        { st with write_log := st.write_log.write_tx_hash tx.header_hash }
        txm [] wa).txm.add_wrapper_gas len with
    | error e =>
      dsimp only
      refine ⟨hcf.1 tx.header_hash hmem0, ?_, ?_, ?_⟩
      · intro ck hck; exact absurd hck (by simp)
      · intro s hs; exact hcf.2.1 () hres
      · intro hfut s hs; exact absurd (Except.error.inj hs) (by simp)
    | ok txm₂ =>
      dsimp only
      refine ⟨hcf.1 tx.header_hash hmem0, ?_, ?_, ?_⟩
      · intro ck hck; exact hcf.2.1 () hres
      · intro s hs; exact absurd hs (by simp)
      · intro hfut s hs; exact absurd hs (by simp)

/-- Witness for the amended C2 theorem at a concrete input: a funded
wrapper pays its fee, the replay entry (hash 11) is present in the final
state, and the tx and precommit buffers are empty after the commit. -/
theorem apply_wrapper_tx_replay_commit_spec_witness :
    (11 : Hash) ∈ (apply_wrapper_tx env₀ tx₂ c4_wrapper none 3 c4w_st
      { tx_gas_limit := 100, transaction_gas := 0 }
      (some { block_proposer := Address.Established 2,
              is_committed_fee_unshield := true })).st.write_log.replay_protection ∧
    (apply_wrapper_tx env₀ tx₂ c4_wrapper none 3 c4w_st
      { tx_gas_limit := 100, transaction_gas := 0 }
      (some { block_proposer := Address.Established 2,
              is_committed_fee_unshield := true })).st.write_log.tx_buffer = [] ∧
    (apply_wrapper_tx env₀ tx₂ c4_wrapper none 3 c4w_st
      { tx_gas_limit := 100, transaction_gas := 0 }
      (some { block_proposer := Address.Established 2,
              is_committed_fee_unshield := true })).st.write_log.precommit_buffer = [] :=
  have h := apply_wrapper_tx_replay_commit_spec env₀ tx₂ c4_wrapper none 3 c4w_st
    { tx_gas_limit := 100, transaction_gas := 0 }
    (some { block_proposer := Address.Established 2,
            is_committed_fee_unshield := true })
    (fun _ _ _ _ _ hm => hm)
  ⟨h.1,
   (h.2.1 [Key.balance (Address.Established 0) (Address.Established 2),
           Key.balance (Address.Established 0) (Address.Established 1)] rfl).1,
   (h.2.1 [Key.balance (Address.Established 0) (Address.Established 2),
           Key.balance (Address.Established 0) (Address.Established 1)] rfl).2⟩

/-! ## Properties of `get_fee_unshielding_transaction` -/

/-- Claim C10: `get_fee_unshielding_transaction` returns `none` when the
wrapper selects no unshield section, when the selected hash resolves to no
section of the transaction, and when the resolved section is not a MASP
section; and with no MASP transaction selected, `charge_fee` runs no
fee-unshielding sub-execution — its outcome is exactly that of the fee
step (`transfer_fee` with a block proposer, `check_fees` without) applied
to the incoming state with the gas meter untouched — and on success with
`wrapper_args` present it sets `is_committed_fee_unshield` to `false`
after committing the tx write-log. -/
theorem get_fee_unshielding_none_and_charge_fee_flag (env : ProtocolEnv)
    (tx : Tx) (w : WrapperTx) (st : LedgerState) (txm : TxGasMeter)
    (ck : List Key) :
    (w.unshield_section_hash = none →
      get_fee_unshielding_transaction tx w = none) ∧
    (∀ h, w.unshield_section_hash = some h → tx.get_section h = none →
      get_fee_unshielding_transaction tx w = none) ∧
    (∀ h sec, w.unshield_section_hash = some h → tx.get_section h = some sec →
      (∀ t, sec ≠ .MaspTx t) → get_fee_unshielding_transaction tx w = none) ∧
    (∀ args : WrapperArgs,
      (∀ e st₂, transfer_fee env st args.block_proposer w = (.error e, st₂) →
        charge_fee env w none st txm ck (some args) =
          ⟨.error e, st₂, txm, ck, some args⟩) ∧
      (∀ st₂, transfer_fee env st args.block_proposer w = (.ok (), st₂) →
        charge_fee env w none st txm ck (some args) =
          ⟨.ok (), { st₂ with write_log := st₂.write_log.commit_tx }, txm,
           ck ++ st₂.write_log.get_keys_with_precommit,
           some { args with is_committed_fee_unshield := false }⟩)) ∧
    ((∀ e, check_fees env st w = .error e →
      charge_fee env w none st txm ck none = ⟨.error e, st, txm, ck, none⟩) ∧
     (check_fees env st w = .ok () →
      charge_fee env w none st txm ck none =
        ⟨.ok (), { st with write_log := st.write_log.commit_tx }, txm,
         ck ++ st.write_log.get_keys_with_precommit, none⟩)) := by
  refine ⟨?_, ?_, ?_, ?_, ?_, ?_⟩
  · intro h
    simp [get_fee_unshielding_transaction, h]
  · intro h hh hsec
    simp [get_fee_unshielding_transaction, hh, hsec]
  · intro h sec hh hsec hnm
    cases sec with
    | MaspTx t => exact absurd rfl (hnm t)
    | Data n =>
      simp [get_fee_unshielding_transaction, hh, hsec]
    | Code n =>
      simp [get_fee_unshielding_transaction, hh, hsec]
    | Authorization n =>
      simp [get_fee_unshielding_transaction, hh, hsec]
  · intro args
    constructor
    · intro e st₂ hTF
      simp only [charge_fee]
      rw [hTF]
    · intro st₂ hTF
      simp only [charge_fee]
      rw [hTF]
  · intro e hcf
    simp only [charge_fee]
    rw [hcf]
  · intro hcf
    simp only [charge_fee]
    rw [hcf]

/-- Witness for the C10 theorem at concrete inputs: a wrapper without an
unshield hash, a dangling hash, and a non-MASP section all yield `none`;
and a funded wrapper's `charge_fee` with no MASP transaction charges the
fee and lowers the committed-unshield flag. -/
theorem get_fee_unshielding_none_and_charge_fee_flag_witness :
    get_fee_unshielding_transaction tx₂ c4_wrapper = none ∧
    get_fee_unshielding_transaction tx₂
      { c4_wrapper with unshield_section_hash := some 99 } = none ∧
    get_fee_unshielding_transaction
      { header_hash := 1, raw_header_hash := 2, sections := [(99, .Data 0)] }
      { c4_wrapper with unshield_section_hash := some 99 } = none ∧
    charge_fee env₀ c4_wrapper none c4w_st
      { tx_gas_limit := 100, transaction_gas := 0 } []
      (some { block_proposer := Address.Established 2,
              is_committed_fee_unshield := true }) =
      ⟨.ok (),
       { c10_mid with write_log := c10_mid.write_log.commit_tx },
       { tx_gas_limit := 100, transaction_gas := 0 },
       [] ++ c10_mid.write_log.get_keys_with_precommit,
       some { block_proposer := Address.Established 2,
              is_committed_fee_unshield := false }⟩ :=
  have hthm := get_fee_unshielding_none_and_charge_fee_flag env₀ tx₂ c4_wrapper
    c4w_st { tx_gas_limit := 100, transaction_gas := 0 } []
  have hthm₂ := get_fee_unshielding_none_and_charge_fee_flag env₀ tx₂
    { c4_wrapper with unshield_section_hash := some 99 } c4w_st
    { tx_gas_limit := 100, transaction_gas := 0 } []
  have hthm₃ := get_fee_unshielding_none_and_charge_fee_flag env₀
    { header_hash := 1, raw_header_hash := 2, sections := [(99, .Data 0)] }
    { c4_wrapper with unshield_section_hash := some 99 } c4w_st
    { tx_gas_limit := 100, transaction_gas := 0 } []
  ⟨hthm.1 rfl,
   hthm₂.2.1 99 rfl rfl,
   hthm₃.2.2.1 99 (.Data 0) rfl rfl (fun t hcontra => by cases hcontra),
   (hthm.2.2.2.1 { block_proposer := Address.Established 2,
                   is_committed_fee_unshield := true }).2 c10_mid rfl⟩

end NamadaProtocol
